import Mathlib

/-!
Verification development for the club_award repository (src/processors.py).

The pipeline is shallowly embedded over lists of typed rows:
pandas dataframes become lists of structures, floats become rationals,
missing values (NaN) become Option, and exceptions become Except.
Row order of intermediate frames is preserved where the source fixes it;
where pandas leaves order to library internals (groupby key order,
unstable sort_values ties) the embedding fixes one concrete order and the
stated properties are independent of it.
-/

/-! ## String utilities (Python string primitives, modelled charwise)

Python unicode-aware lower and strip are modelled on ASCII via Char.toLower
and Char.isWhitespace; every string the pipeline compares against is ASCII.
-/

def stripList (l : List Char) : List Char :=
  ((l.dropWhile Char.isWhitespace).reverse.dropWhile Char.isWhitespace).reverse

/-- Python str.strip. -/
def pyStrip (s : String) : String := String.mk (stripList s.toList)

/-- Python str.lower. -/
def pyLower (s : String) : String := String.mk (s.toList.map Char.toLower)

/-- Python substring test, the in operator on str. -/
def strContains (hay needle : String) : Bool :=
  (List.range (hay.toList.length + 1)).any fun i => needle.toList.isPrefixOf (hay.toList.drop i)

/-- Membership of a single character in a string. -/
def strContainsChar (s : String) (c : Char) : Bool := s.toList.contains c

/-- Split a character list on a separator character; always returns at least one piece. -/
def splitListOn (sep : Char) : List Char → List (List Char)
  | [] => [[]]
  | c :: t =>
    let r := splitListOn sep t
    if c == sep then [] :: r
    else
      match r with
      | h :: t2 => (c :: h) :: t2
      | [] => [[c]]

/-- Python str.splitlines restricted to the newline character: like splitting on
the newline but with no trailing empty piece (and the empty string gives no lines). -/
def pySplitlines (s : String) : List String :=
  let parts := splitListOn '\n' s.toList
  let parts2 := if parts.getLast? = some [] then parts.dropLast else parts
  parts2.map fun cs => String.mk cs

/-- Python " ".join. -/
def joinSpace : List String → String
  | [] => ""
  | [x] => x
  | x :: xs => x ++ " " ++ joinSpace xs

/-- processors.py line 32: normalize_name strips then lower-cases. -/
def normalize_name (name : String) : String := pyLower (pyStrip name)

/-! ## Keyword tables (processors.py lines 17 to 29) -/

def EVENT_KEYWORDS : List String :=
  ["event", "workshop", "hackathon", "audition", "rehearsal", "match", "tournament",
   "seminar", "competition", "tryouts", "practice", "session", "register", "register by",
   "meet", "meetup", "talk", "webinar", "presentation", "contest"]

/-- processors.py lines 24 to 29; a Python 3.7+ dict preserves insertion order,
so the category table is an ordered association list. -/
def CATEGORY_KEYWORDS : List (String × List String) :=
  [("tech", ["coding", "robotics", "programming", "hackathon", "python", "java", "embedded", "electronics"]),
   ("sports", ["football", "basketball", "cricket", "tennis", "soccer", "training", "match", "tournament", "camp", "practice", "tryouts"]),
   ("entertainment", ["music", "dance", "drama", "theatre", "acoustic", "play", "singing", "performance", "recording"]),
   ("literature & knowledge", ["quiz", "debate", "tamil", "lecture", "knowledge", "mun", "cultural", "seminar", "talk"])]

/-- First-match scan of the ordered category table (the for loop of lines 210 to 214). -/
def lookupCategory (cats : List (String × List String)) (text : String) : String :=
  match cats with
  | [] => "others"
  | (category, keywords) :: rest =>
    if keywords.any fun kw => strContains text kw then category
    else lookupCategory rest text

/-- processors.py lines 208 to 214. -/
def assign_club_to_category (club_name text : String) : String :=
  lookupCategory CATEGORY_KEYWORDS (pyLower (club_name ++ " " ++ text))

/-! ## Chat-log aggregator (processors.py lines 87 to 129) -/

structure ChatStats where
  total_msgs : Nat
  unique_senders : Nat
  event_mentions : Nat
deriving DecidableEq

/-- The regex fragment that lazily captures at least one character up to a colon:
the least index j + 1 of a colon strictly after position 0, capture of everything
before that colon. -/
def lazyCapture (rest : List Char) : Option (List Char) :=
  match rest with
  | [] => none
  | _ :: t =>
    match t.findIdx? fun c => c == ':' with
    | some j => some (rest.take (j + 1))
    | none => none

/-- Backtracking over the greedy whitespace consumption of the regex
dash whitespace-star capture colon: try consuming k whitespace characters,
largest k first. -/
def wsBacktrack : Nat → List Char → Option (List Char)
  | 0, cs => lazyCapture cs
  | k + 1, cs =>
    match lazyCapture (cs.drop (k + 1)) with
    | some cap => some cap
    | none => wsBacktrack k cs

/-- Attempt to match the part of the sender pattern after a dash. -/
def tryCapture (cs : List Char) : Option (List Char) :=
  wsBacktrack (cs.takeWhile Char.isWhitespace).length cs

/-- re.search of the pattern dash whitespace-star lazy-capture colon
(processors.py line 93): leftmost dash at which the rest of the pattern matches. -/
def senderSearch : List Char → Option (List Char)
  | [] => none
  | c :: rest =>
    if c == '-' then
      match tryCapture rest with
      | some cap => some cap
      | none => senderSearch rest
    else senderSearch rest

/-- Per-line accumulator step of the loop at lines 94 to 103.  State:
message count, list of distinct senders seen (models the Python set), event
mention count.  A line lacking a dash or a colon leaves the state unchanged. -/
def chatStep (st : Nat × List String × Nat) (L : String) : Nat × List String × Nat :=
  if strContainsChar L '-' && strContainsChar L ':' then
    let msgs := st.1 + 1
    let senders :=
      match senderSearch L.toList with
      | some cap =>
        let sender := pyStrip (String.mk cap)
        if st.2.1.contains sender then st.2.1 else st.2.1 ++ [sender]
      | none => st.2.1
    let low := pyLower L
    let ev := if EVENT_KEYWORDS.any fun k => strContains low k then st.2.2 + 1 else st.2.2
    (msgs, senders, ev)
  else st

/-- processors.py lines 87 to 104.  The utf-8 decode with errors ignore is
modelled by taking the decoded text directly. -/
def parse_whatsapp_text_file_bytes (content : String) : ChatStats :=
  let lines := ((pySplitlines content).map pyStrip).filter fun L => !(L == "")
  let st := lines.foldl chatStep (0, [], 0)
  ⟨st.1, st.2.1.length, st.2.2⟩

/-- os.path.splitext without the extension: drop the suffix starting at the last
dot, unless every character before that dot is itself a dot. -/
def splitextBase (fname : String) : String :=
  let cs := fname.toList
  match ((cs.enum.filter fun p => p.2 == '.').map fun p => p.1).getLast? with
  | none => fname
  | some i => if (cs.take i).all fun c => c == '.' then fname else String.mk (cs.take i)

/-- One uploaded chat file: base name carries the club identity; content is
none when reading or decoding raised (the except branch of lines 123 to 124). -/
structure UploadedFile where
  name : String
  content : Option String
deriving DecidableEq

structure ChatRow where
  club_name : String
  whatsapp_msgs : ℚ
  whatsapp_unique_senders : ℚ
  whatsapp_event_mentions : ℚ
deriving DecidableEq

/-- processors.py lines 107 to 129: one output row per uploaded file. -/
def parse_whatsapp_folder (uploaded_files : List UploadedFile) : List ChatRow :=
  uploaded_files.map fun f =>
    let club_name := normalize_name (splitextBase f.name)
    let res : ChatStats :=
      match f.content with
      | some content => parse_whatsapp_text_file_bytes content
      | none => ⟨0, 0, 0⟩
    { club_name := club_name,
      whatsapp_msgs := (res.total_msgs : ℚ),
      whatsapp_unique_senders := (res.unique_senders : ℚ),
      whatsapp_event_mentions := (res.event_mentions : ℚ) }

/-! ## Raw tabular inputs (pandas dataframes read from csv)

A raw table is a header row plus cell rows aligned with it; a cell holds
none where pandas reads NaN.  Empty inputs keep their schema (column list). -/

structure RawTable where
  cols : List String
  rows : List (List (Option String))
deriving DecidableEq

deriving instance DecidableEq for Except

/-- Column lookup by exact name (first matching column); none models the
KeyError of a missing column. -/
def getColumn (t : RawTable) (name : String) : Option (List (Option String)) :=
  (t.cols.findIdx? fun c => c == name).map fun i => t.rows.map fun r => r.getD i none

/-- df.rename(columns=\x7bold: new\x7d). -/
def renameCol (t : RawTable) (old new : String) : RawTable :=
  { t with cols := t.cols.map fun c => if c == old then new else c }

/-- Column assignment df[name] = vals: replace in place, or append a new column. -/
def setCol (t : RawTable) (name : String) (vals : List (Option String)) : RawTable :=
  match t.cols.findIdx? fun c => c == name with
  | some i => { t with rows := t.rows.zipWith (fun r v => r.set i v) vals }
  | none => { cols := t.cols ++ [name], rows := t.rows.zipWith (fun r v => r ++ [v]) vals }

/-- Digit-string value when every character is a digit and there is at least one. -/
def digitsVal (cs : List Char) : Option Nat :=
  if cs.isEmpty then none
  else cs.foldl (fun acc c =>
    match acc with
    | none => none
    | some n => if c.isDigit then some (n * 10 + (c.toNat - 48)) else none) (some 0)

/-- Like digitsVal but an empty digit run counts as 0 (for "1." and ".5"). -/
def digitsVal0 (cs : List Char) : Option Nat :=
  cs.foldl (fun acc c =>
    match acc with
    | none => none
    | some n => if c.isDigit then some (n * 10 + (c.toNat - 48)) else none) (some 0)

/-- pd.to_numeric with errors coerce on one cell, modelled for plain decimal
literals with optional sign and fraction point; anything else coerces to NaN. -/
def parseRat (s : String) : Option ℚ :=
  let cs := (pyStrip s).toList
  let sc : ℚ × List Char :=
    match cs with
    | '-' :: t => (-1, t)
    | '+' :: t => (1, t)
    | _ => (1, cs)
  match splitListOn '.' sc.2 with
  | [ip] => (digitsVal ip).map fun n => sc.1 * (n : ℚ)
  | [ip, fp] =>
    if ip.isEmpty && fp.isEmpty then none
    else
      match digitsVal0 ip, digitsVal0 fp with
      | some n, some f => some (sc.1 * ((n : ℚ) + (f : ℚ) / (10 : ℚ) ^ fp.length))
      | _, _ => none
  | _ => none

/-- Mean of the numerically coercible cells, skipping NaN, as pandas mean does;
none when no cell is numeric (an all-NaN mean). -/
def meanOfParsed (vals : List (Option String)) : Option ℚ :=
  let nums := vals.filterMap fun v => v.bind parseRat
  if nums.isEmpty then none else some (nums.sum / (nums.length : ℚ))

/-- Four-way zip used to regroup survey columns into records. -/
def zip4 : List α → List β → List γ → List δ → List (α × β × γ × δ)
  | a :: as, b :: bs, c :: cs, d :: ds => (a, b, c, d) :: zip4 as bs cs ds
  | _, _, _, _ => []

/-- One aggregated survey record per distinct normalized club (output of parse_survey). -/
structure SurveyRow where
  club_name : String
  heard_often_mean : ℚ
  participation_mean : ℚ
  num_responses : ℚ
  feedback_concat : String
deriving DecidableEq

/-- str(x).strip().lower() in [yes, y, 1, true], with str(NaN) = "nan". -/
def yesLike (x : Option String) : Bool :=
  ["yes", "y", "1", "true"].contains (pyLower (pyStrip (x.getD "nan")))

/-- processors.py lines 41 to 80, faithfully including the order of the steps:
the club_name access and normalization at line 43 happens before the header
strip of line 46, and no default column is ever created for heard_often, so the
named aggregation at line 71 requires a heard_often column (or a recognized
synonym) to be present.  Applying normalize_name to a NaN cell raises in Python
and is an error here.  The groupby key order is modelled as first occurrence. -/
def parse_survey (t : RawTable) : Except String (List SurveyRow) :=
  match getColumn t ("club_name") with
  | none => Except.error ("KeyError: club_name")
  | some clubVals0 =>
  if clubVals0.contains none then Except.error ("AttributeError: normalize_name of NaN") else
  let t1 := setCol t ("club_name") (clubVals0.map (Option.map normalize_name))
  let t2 : RawTable := { t1 with cols := t1.cols.map pyStrip }
  if (t2.cols.contains ("club_name")) = false then
    Except.error ("ValueError: Survey CSV must have a club_name column")
  else
  let t3 := if t2.cols.contains ("heard_often") then t2 else
    match ["awareness", "how_often", "heard"].find? (fun a => t2.cols.contains a) with
    | some a => renameCol t2 a ("heard_often")
    | none => t2
  let t4 := if !(t3.cols.contains ("participation_count")) && t3.cols.contains ("participated") then
      setCol t3 ("participation_count")
        (((getColumn t3 ("participated")).getD []).map fun x => some (if yesLike x then "1" else "0"))
    else t3
  let t5 := if t4.cols.contains ("participation_count") then t4
    else setCol t4 ("participation_count") (t4.rows.map fun _ => some ("0"))
  let t6 := if t5.cols.contains ("feedback_text") then t5 else
    match ["review_text", "review", "feedback", "comments"].find? (fun a => t5.cols.contains a) with
    | some a => renameCol t5 a ("feedback_text")
    | none => setCol t5 ("feedback_text") (t5.rows.map fun _ => some (""))
  match getColumn t6 ("heard_often") with
  | none => Except.error ("KeyError: Column(s) [heard_often] do not exist")
  | some heardVals =>
  let clubs := ((getColumn t6 ("club_name")).getD []).map fun v => v.getD ""
  let parts := (getColumn t6 ("participation_count")).getD []
  let fbs := (getColumn t6 ("feedback_text")).getD []
  let recs := zip4 clubs heardVals parts fbs
  Except.ok <| (clubs.dedup).map fun k =>
    let g := recs.filter fun rc => rc.1 == k
    { club_name := k,
      heard_often_mean := (meanOfParsed (g.map fun rc => rc.2.1)).getD 0,
      participation_mean := (meanOfParsed (g.map fun rc => rc.2.2.1)).getD 0,
      num_responses := (g.length : ℚ),
      feedback_concat := joinSpace
        (((g.map fun rc => rc.2.2.2).filterMap id).filter fun s => !(pyStrip s == "")) }

/-- One aggregated event-log record per distinct normalized club. -/
structure EventRow where
  club_name : String
  event_count : ℚ
  text_for_grouping : String
deriving DecidableEq

/-- processors.py lines 137 to 182, modelled after the csv has been read.
Faithful to the source order: headers are stripped (line 145), then
df[club_name] is accessed and normalized (line 148) BEFORE the synonym
fallback of lines 149 to 153, so a table carrying the identity under a synonym
raises KeyError and the fallback block is unreachable.  Likewise line 166,
df.get(event_title, fillna-chained), raises AttributeError when the column is
absent because the string default has no fillna.  Only the aggregate frame of
the returned pair is modelled; event_count counts the rows of the group since
every title was filled non-null. -/
def parse_event_log (t0 : RawTable) : Except String (List EventRow) :=
  let t := { t0 with cols := t0.cols.map pyStrip }
  match getColumn t ("club_name") with
  | none => Except.error ("KeyError: club_name")
  | some clubVals0 =>
  if clubVals0.contains none then Except.error ("AttributeError: normalize_name of NaN") else
  let t1 := setCol t ("club_name") (clubVals0.map (Option.map normalize_name))
  let t2 := if t1.cols.contains ("club_name") then t1 else
    match ["Club Name", "club", "clubname"].find? (fun a => t1.cols.contains a) with
    | some a => renameCol t1 a ("club_name")
    | none => t1
  let t3 := if t2.cols.contains ("event_title") then t2 else
    match ["Event Title", "title", "event"].find? (fun a => t2.cols.contains a) with
    | some a => renameCol t2 a ("event_title")
    | none => t2
  let t4 := if t3.cols.contains ("event_description") then t3 else
    match ["Event Description", "description", "details"].find? (fun a => t3.cols.contains a) with
    | some a => renameCol t3 a ("event_description")
    | none => t3
  match getColumn t4 ("event_title") with
  | none => Except.error ("AttributeError: str has no fillna")
  | some titleVals =>
  let t5 := setCol t4 ("event_title") (titleVals.map fun v => some (v.getD ""))
  match getColumn t5 ("event_description") with
  | none => Except.error ("AttributeError: str has no fillna")
  | some descVals =>
  let t6 := setCol t5 ("event_description") (descVals.map fun v => some (v.getD ""))
  let clubs := ((getColumn t6 ("club_name")).getD []).map fun v => v.getD ""
  let titles := ((getColumn t6 ("event_title")).getD []).map fun v => v.getD ""
  let descs := ((getColumn t6 ("event_description")).getD []).map fun v => v.getD ""
  let recs := clubs.zip (titles.zip descs)
  Except.ok <| (clubs.dedup).map fun k =>
    let g := recs.filter fun rc => rc.1 == k
    { club_name := k,
      event_count := (g.length : ℚ),
      text_for_grouping := pyLower (joinSpace (g.map fun rc => rc.2.1) ++ " " ++ joinSpace (g.map fun rc => rc.2.2)) }

/-! ## Sentiment records (output contract of compute_sentiment_per_club)

The sentiment scorer itself (VADER) is an external collaborator; the score
composer consumes its output frame of club_name and sentiment_score rows. -/

structure SentimentRow where
  club_name : String
  sentiment_score : ℚ
deriving DecidableEq

/-! ## Score composer (processors.py lines 221 to 331)

The three outer merges of lines 222 to 224 are pandas pd.merge(. , how=outer)
on the club_name key: for each key the matching left and right rows are
cross-joined, keys present on one side only keep that side and get NaN in the
other columns.  pandas additionally sorts the union of keys; the row order of
the merge result is irrelevant to every stated property and the embedding
keeps left-then-unmatched-right order instead. -/

/-- A row of the merged frame before fillna: every column that can be missing
for a club absent from some source is an Option. -/
structure MergedRow where
  club_name : String
  heard_often_mean : Option ℚ
  participation_mean : Option ℚ
  num_responses : Option ℚ
  feedback_concat : Option String
  sentiment_score : Option ℚ
  whatsapp_msgs : Option ℚ
  whatsapp_unique_senders : Option ℚ
  whatsapp_event_mentions : Option ℚ
  event_count : Option ℚ
  text_for_grouping : Option String
deriving DecidableEq

/-- Generic outer merge on a string key: every left row is cross-joined with
its key-matching right rows (or passed through alone when there is none), and
right rows whose key never occurs on the left are appended. -/
def outerExtend (kl : α → String) (kr : β → String) (both : α → β → γ)
    (onlyL : α → γ) (onlyR : β → γ) (l : List α) (r : List β) : List γ :=
  (l.flatMap fun x =>
    let ms := r.filter fun y => kr y == kl x
    if ms.isEmpty then [onlyL x] else ms.map fun y => both x y)
  ++ ((r.filter fun y => l.all fun x => !(kr y == kl x)).map onlyR)

/-- Survey columns of a merged row, with an optional sentiment value. -/
def surveyToMerged (s : SurveyRow) (sent : Option ℚ) : MergedRow :=
  { club_name := s.club_name, heard_often_mean := some s.heard_often_mean,
    participation_mean := some s.participation_mean, num_responses := some s.num_responses,
    feedback_concat := some s.feedback_concat, sentiment_score := sent,
    whatsapp_msgs := none, whatsapp_unique_senders := none, whatsapp_event_mentions := none,
    event_count := none, text_for_grouping := none }

/-- A sentiment row without survey columns. -/
def sentOnlyMerged (t : SentimentRow) : MergedRow :=
  { club_name := t.club_name, heard_often_mean := none, participation_mean := none,
    num_responses := none, feedback_concat := none, sentiment_score := some t.sentiment_score,
    whatsapp_msgs := none, whatsapp_unique_senders := none, whatsapp_event_mentions := none,
    event_count := none, text_for_grouping := none }

/-- Line 222: df = pd.merge(survey_agg_df, sentiment_df, on=club_name, how=outer). -/
def mergeSurveySentiment (survey_agg_df : List SurveyRow) (sentiment_df : List SentimentRow) : List MergedRow :=
  outerExtend (fun s => s.club_name) (fun t => t.club_name)
    (fun s t => surveyToMerged s (some t.sentiment_score))
    (fun s => surveyToMerged s none) sentOnlyMerged survey_agg_df sentiment_df

/-- Overwrite the chat columns of a merged row from a chat row. -/
def withChat (r : MergedRow) (c : ChatRow) : MergedRow :=
  { r with whatsapp_msgs := some c.whatsapp_msgs,
           whatsapp_unique_senders := some c.whatsapp_unique_senders,
           whatsapp_event_mentions := some c.whatsapp_event_mentions }

/-- A chat row alone, all other columns NaN. -/
def chatOnlyMerged (c : ChatRow) : MergedRow :=
  { club_name := c.club_name, heard_often_mean := none, participation_mean := none,
    num_responses := none, feedback_concat := none, sentiment_score := none,
    whatsapp_msgs := some c.whatsapp_msgs, whatsapp_unique_senders := some c.whatsapp_unique_senders,
    whatsapp_event_mentions := some c.whatsapp_event_mentions,
    event_count := none, text_for_grouping := none }

/-- Line 223: df = pd.merge(df, whatsapp_df, on=club_name, how=outer). -/
def mergeChat (df : List MergedRow) (whatsapp_df : List ChatRow) : List MergedRow :=
  outerExtend (fun r => r.club_name) (fun c => c.club_name)
    withChat id chatOnlyMerged df whatsapp_df

/-- Overwrite the event columns of a merged row from an event row. -/
def withEvent (r : MergedRow) (e : EventRow) : MergedRow :=
  { r with event_count := some e.event_count, text_for_grouping := some e.text_for_grouping }

/-- An event row alone, all other columns NaN. -/
def eventOnlyMerged (e : EventRow) : MergedRow :=
  { club_name := e.club_name, heard_often_mean := none, participation_mean := none,
    num_responses := none, feedback_concat := none, sentiment_score := none,
    whatsapp_msgs := none, whatsapp_unique_senders := none, whatsapp_event_mentions := none,
    event_count := some e.event_count, text_for_grouping := some e.text_for_grouping }

/-- Line 224: df = pd.merge(df, event_agg_df, on=club_name, how=outer). -/
def mergeEvent (df : List MergedRow) (event_agg_df : List EventRow) : List MergedRow :=
  outerExtend (fun r => r.club_name) (fun e => e.club_name)
    withEvent id eventOnlyMerged df event_agg_df

/-- The merged frame of lines 222 to 224, in the argument order of
compute_group_scores. -/
def mergedRows (survey_agg_df : List SurveyRow) (whatsapp_df : List ChatRow)
    (sentiment_df : List SentimentRow) (event_agg_df : List EventRow) : List MergedRow :=
  mergeEvent (mergeChat (mergeSurveySentiment survey_agg_df sentiment_df) whatsapp_df) event_agg_df

/-- A row of the working frame from the fillna step on.  The normalization,
score and rank columns do not exist yet when the row is created; they are
initialized to 0 and assigned by the later pipeline stages, mirroring the
creation of dataframe columns.  num_responses is the one numeric column the
source never fills, so it stays an Option. -/
structure ScoredRow where
  club_name : String
  heard_often_mean : ℚ
  participation_mean : ℚ
  num_responses : Option ℚ
  feedback_concat : String
  sentiment_score : ℚ
  whatsapp_msgs : ℚ
  whatsapp_unique_senders : ℚ
  whatsapp_event_mentions : ℚ
  event_count : ℚ
  text_for_grouping : String
  group : String
  heard_norm : ℚ
  participation_norm : ℚ
  sentiment_norm : ℚ
  whatsapp_msgs_norm : ℚ
  event_count_n : ℚ
  group_score : ℚ
  heard_norm_global : ℚ
  participation_norm_global : ℚ
  sentiment_norm_global : ℚ
  whatsapp_msgs_norm_global : ℚ
  event_count_norm_global : ℚ
  overall_score : ℚ
  overall_rank : ℕ
deriving DecidableEq

/-- Lines 227 to 239: fillna with the per-source defaults, then the group
(category) assignment of line 239 from the normalized identity and the
grouping text. -/
def fillRow (m : MergedRow) : ScoredRow :=
  let text := m.text_for_grouping.getD ""
  { club_name := m.club_name,
    heard_often_mean := m.heard_often_mean.getD 0,
    participation_mean := m.participation_mean.getD 0,
    num_responses := m.num_responses,
    feedback_concat := m.feedback_concat.getD "",
    sentiment_score := m.sentiment_score.getD 0.5,
    whatsapp_msgs := m.whatsapp_msgs.getD 0,
    whatsapp_unique_senders := m.whatsapp_unique_senders.getD 0,
    whatsapp_event_mentions := m.whatsapp_event_mentions.getD 0,
    event_count := m.event_count.getD 0,
    text_for_grouping := text,
    group := assign_club_to_category m.club_name text,
    heard_norm := 0, participation_norm := 0, sentiment_norm := 0,
    whatsapp_msgs_norm := 0, event_count_n := 0, group_score := 0,
    heard_norm_global := 0, participation_norm_global := 0, sentiment_norm_global := 0,
    whatsapp_msgs_norm_global := 0, event_count_norm_global := 0,
    overall_score := 0, overall_rank := 0 }

/-- The filled and categorized frame right before the scoring loop. -/
def groupedRows (survey_agg_df : List SurveyRow) (whatsapp_df : List ChatRow)
    (sentiment_df : List SentimentRow) (event_agg_df : List EventRow) : List ScoredRow :=
  (mergedRows survey_agg_df whatsapp_df sentiment_df event_agg_df).map fillRow

/-- The fixed weight dictionary of line 243 (every caller passes None for
default_weights, so these are the weights in effect). -/
structure Weights where
  heard : ℚ
  participation : ℚ
  sentiment : ℚ
  whatsapp_msgs : ℚ
  event_count : ℚ

def default_weights : Weights :=
  { heard := 0.30, participation := 0.30, sentiment := 0.20,
    whatsapp_msgs := 0.10, event_count := 0.10 }

/-- The weighted sum applied to five normalized metrics (lines 267 to 273 and
302 to 308 use the same formula). -/
def wsum (w : Weights) (h p s m e : ℚ) : ℚ :=
  w.heard * h + w.participation * p + w.sentiment * s + w.whatsapp_msgs * m + w.event_count * e

/-- Maximum of a list of rationals (pandas Series.max); 0 for the empty list,
which the source only meets behind a guard that then ignores the value. -/
def listMax : List ℚ → ℚ
  | [] => 0
  | x :: xs => xs.foldl max x

/-- Minimum, as listMax. -/
def listMin : List ℚ → ℚ
  | [] => 0
  | x :: xs => xs.foldl min x

/-- The per-category min and max used by the within-group scoring (Step 1 of
the source, lines 250 to 263). -/
structure GroupStats where
  pmin : ℚ
  pmax : ℚ
  mmin : ℚ
  mmax : ℚ
  emin : ℚ
  emax : ℚ

def groupStats (g : List ScoredRow) : GroupStats :=
  { pmin := listMin (g.map fun r => r.participation_mean),
    pmax := listMax (g.map fun r => r.participation_mean),
    mmin := listMin (g.map fun r => r.whatsapp_msgs),
    mmax := listMax (g.map fun r => r.whatsapp_msgs),
    emin := listMin (g.map fun r => r.event_count),
    emax := listMax (g.map fun r => r.event_count) }

/-- Lines 250 to 273 applied to one row of a category group: popularity by the
fixed ceiling 5.0, min-max scaling for participation, messages and events with
the flat-group value 0.0, sentiment as is, then the weighted group score. -/
def catScore (st : GroupStats) (r : ScoredRow) : ScoredRow :=
  let hn := r.heard_often_mean / 5
  let pn := if st.pmax - st.pmin > 0 then (r.participation_mean - st.pmin) / (st.pmax - st.pmin) else 0
  let sn := r.sentiment_score
  let wn := if st.mmax - st.mmin > 0 then (r.whatsapp_msgs - st.mmin) / (st.mmax - st.mmin) else 0
  let en := if st.emax - st.emin > 0 then (r.event_count - st.emin) / (st.emax - st.emin) else 0
  { r with heard_norm := hn, participation_norm := pn, sentiment_norm := sn,
           whatsapp_msgs_norm := wn, event_count_n := en,
           group_score := wsum default_weights hn pn sn wn en }

/-- One category group scored (the body of the for loop at line 248). -/
def scoreWithinGroup (g : List ScoredRow) : List ScoredRow :=
  g.map (catScore (groupStats g))

/-- The distinct group labels; pandas groupby sorts them, the embedding keeps
first occurrence — every stated property is independent of the group order. -/
def groupKeys (df : List ScoredRow) : List String :=
  (df.map fun r => r.group).dedup

/-- Lines 247 to 277: score each category group and concatenate. -/
def concatGroups (df : List ScoredRow) : List ScoredRow :=
  (groupKeys df).flatMap fun k => scoreWithinGroup (df.filter fun r => r.group == k)

def catScoredRows (survey_agg_df : List SurveyRow) (whatsapp_df : List ChatRow)
    (sentiment_df : List SentimentRow) (event_agg_df : List EventRow) : List ScoredRow :=
  concatGroups (groupedRows survey_agg_df whatsapp_df sentiment_df event_agg_df)

/-- The whole-population maxima used by Step 2 of the source (lines 283, 290, 295). -/
structure GlobalStats where
  pmax : ℚ
  mmax : ℚ
  emax : ℚ

def globalStatsOf (l : List ScoredRow) : GlobalStats :=
  { pmax := listMax (l.map fun r => r.participation_mean),
    mmax := listMax (l.map fun r => r.whatsapp_msgs),
    emax := listMax (l.map fun r => r.event_count) }

/-- Lines 281 to 308 applied to one row: global normalization (value divided by
the population max when that max is positive, else 0.0; popularity again by the
fixed ceiling; sentiment as is) and the weighted overall score. -/
def globScore (gs : GlobalStats) (r : ScoredRow) : ScoredRow :=
  let hn := r.heard_often_mean / 5
  let pn := if gs.pmax > 0 then r.participation_mean / gs.pmax else 0
  let sn := r.sentiment_score
  let wn := if gs.mmax > 0 then r.whatsapp_msgs / gs.mmax else 0
  let en := if gs.emax > 0 then r.event_count / gs.emax else 0
  { r with heard_norm_global := hn, participation_norm_global := pn,
           sentiment_norm_global := sn, whatsapp_msgs_norm_global := wn,
           event_count_norm_global := en,
           overall_score := wsum default_weights hn pn sn wn en }

def addGlobalScores (l : List ScoredRow) : List ScoredRow :=
  l.map (globScore (globalStatsOf l))

def globalScoredRows (survey_agg_df : List SurveyRow) (whatsapp_df : List ChatRow)
    (sentiment_df : List SentimentRow) (event_agg_df : List EventRow) : List ScoredRow :=
  addGlobalScores (catScoredRows survey_agg_df whatsapp_df sentiment_df event_agg_df)

/-- Line 310: rank(method=min, ascending=False).astype(int) — the rank of a row
is one more than the number of rows with strictly greater overall score. -/
def rankRow (l : List ScoredRow) (r : ScoredRow) : ScoredRow :=
  { r with overall_rank := 1 + l.countP fun r2 => decide (r.overall_score < r2.overall_score) }

def addRanks (l : List ScoredRow) : List ScoredRow :=
  l.map (rankRow l)

def rankedRows (survey_agg_df : List SurveyRow) (whatsapp_df : List ChatRow)
    (sentiment_df : List SentimentRow) (event_agg_df : List EventRow) : List ScoredRow :=
  addRanks (globalScoredRows survey_agg_df whatsapp_df sentiment_df event_agg_df)

/-- The sort key of line 313: group ascending, then group score descending.
pandas sort_values is an unstable quicksort; the insertion sort here realizes
one permutation consistent with the same key, and no stated property depends
on the order of tied rows. -/
def finalOrder (a b : ScoredRow) : Prop :=
  a.group < b.group ∨ (a.group = b.group ∧ b.group_score ≤ a.group_score)

instance : DecidableRel finalOrder := fun a b => by
  unfold finalOrder; exact inferInstance

def sortFinal (l : List ScoredRow) : List ScoredRow := l.insertionSort finalOrder

/-- A row of the winners frame of line 312. -/
structure WinnerRow where
  group : String
  club_name : String
  category_score : ℚ
  overall_score : ℚ
deriving DecidableEq

/-- Line 312: per group, the first row attaining the maximal group score
(groupby idxmax), taken on the ranked frame before the final sort. -/
def winnersOf (l : List ScoredRow) : List WinnerRow :=
  (groupKeys l).filterMap fun k =>
    let g := l.filter fun r => r.group == k
    let m := listMax (g.map fun r => r.group_score)
    (g.find? fun r => r.group_score == m).map fun r =>
      { group := r.group, club_name := r.club_name,
        category_score := r.group_score, overall_score := r.overall_score }

/-- processors.py lines 221 to 331: the full score composer.  The final rename
of line 316 only relabels columns; it is embedded as the projection aliases
defined right below (popularity_score, participation_score, engagement_score,
activity_score, category_score). -/
def compute_group_scores (survey_agg_df : List SurveyRow) (whatsapp_df : List ChatRow)
    (sentiment_df : List SentimentRow) (event_agg_df : List EventRow) :
    List ScoredRow × List WinnerRow :=
  (sortFinal (rankedRows survey_agg_df whatsapp_df sentiment_df event_agg_df),
   winnersOf (rankedRows survey_agg_df whatsapp_df sentiment_df event_agg_df))

/-- Rename of line 317: popularity_score is heard_often_mean. -/
def ScoredRow.popularity_score (r : ScoredRow) : ℚ := r.heard_often_mean

/-- Rename of line 318: participation_score is participation_mean. -/
def ScoredRow.participation_score (r : ScoredRow) : ℚ := r.participation_mean

/-- Rename of line 320: engagement_score is whatsapp_msgs. -/
def ScoredRow.engagement_score (r : ScoredRow) : ℚ := r.whatsapp_msgs

/-- Rename of line 321: activity_score is event_count. -/
def ScoredRow.activity_score (r : ScoredRow) : ℚ := r.event_count

/-- Rename of line 322: category_score is group_score. -/
def ScoredRow.category_score (r : ScoredRow) : ℚ := r.group_score

/-- A default row for positional access in closed statements. -/
def defaultScoredRow : ScoredRow :=
  { club_name := "", heard_often_mean := 0, participation_mean := 0, num_responses := none,
    feedback_concat := "", sentiment_score := 0, whatsapp_msgs := 0, whatsapp_unique_senders := 0,
    whatsapp_event_mentions := 0, event_count := 0, text_for_grouping := "", group := "",
    heard_norm := 0, participation_norm := 0, sentiment_norm := 0, whatsapp_msgs_norm := 0,
    event_count_n := 0, group_score := 0, heard_norm_global := 0, participation_norm_global := 0,
    sentiment_norm_global := 0, whatsapp_msgs_norm_global := 0, event_count_norm_global := 0,
    overall_score := 0, overall_rank := 0 }

/-- The population maximum of participation_mean used by line 283 to 284. -/
def globalPmax (survey_agg_df : List SurveyRow) (whatsapp_df : List ChatRow)
    (sentiment_df : List SentimentRow) (event_agg_df : List EventRow) : ℚ :=
  (globalStatsOf (catScoredRows survey_agg_df whatsapp_df sentiment_df event_agg_df)).pmax

/-- The population maximum of whatsapp_msgs used by line 290 to 291. -/
def globalMmax (survey_agg_df : List SurveyRow) (whatsapp_df : List ChatRow)
    (sentiment_df : List SentimentRow) (event_agg_df : List EventRow) : ℚ :=
  (globalStatsOf (catScoredRows survey_agg_df whatsapp_df sentiment_df event_agg_df)).mmax

/-- The population maximum of event_count used by line 295 to 296. -/
def globalEmax (survey_agg_df : List SurveyRow) (whatsapp_df : List ChatRow)
    (sentiment_df : List SentimentRow) (event_agg_df : List EventRow) : ℚ :=
  (globalStatsOf (catScoredRows survey_agg_df whatsapp_df sentiment_df event_agg_df)).emax

/-! ## Counting helper lemmas -/

theorem sum_map_add {α} (K : List α) (A B : α → ℕ) :
    (K.map fun k => A k + B k).sum = (K.map A).sum + (K.map B).sum := by
  induction K with
  | nil => simp
  | cons k t ih => simp [ih]; omega

theorem sum_map_ite_not_mem {K : List String} {c : String} (h : c ∉ K) :
    (K.map fun k => if c = k then 1 else 0).sum = 0 := by
  induction K with
  | nil => simp
  | cons k t ih =>
    have hck : ¬(c = k) := fun hc => h (hc ▸ List.mem_cons_self k t)
    have hct : c ∉ t := fun hc => h (List.mem_cons_of_mem _ hc)
    simp [hck, ih hct]

theorem sum_map_ite_mem {K : List String} {c : String} (hK : K.Nodup) (h : c ∈ K) :
    (K.map fun k => if c = k then 1 else 0).sum = 1 := by
  induction K with
  | nil => cases h
  | cons k t ih =>
    rcases List.mem_cons.1 h with hck | hct
    · subst hck
      have hnt : c ∉ t := (List.nodup_cons.1 hK).1
      simp [sum_map_ite_not_mem hnt]
    · have hck : ¬(c = k) := by
        intro hc
        exact (List.nodup_cons.1 hK).1 (hc ▸ hct)
      simp [hck, ih (List.nodup_cons.1 hK).2 hct]

theorem sum_map_ite_eq_countP {α} (l : List α) (f : α → String) (c : String) :
    (l.map fun x => if f x = c then 1 else 0).sum = l.countP fun x => decide (f x = c) := by
  induction l with
  | nil => simp
  | cons a t ih =>
    by_cases h : f a = c <;> simp [List.countP_cons, h, ih] <;> omega

theorem partition_countP {α} (df : List α) (K : List String) (f : α → String) (p : α → Bool)
    (hK : K.Nodup) (hcov : ∀ r ∈ df, f r ∈ K) :
    (K.map fun k => df.countP fun r => p r && decide (f r = k)).sum = df.countP p := by
  induction df with
  | nil => simp
  | cons a t ih =>
    have hcovt : ∀ r ∈ t, f r ∈ K := fun r hr => hcov r (List.mem_cons_of_mem _ hr)
    have hfa : f a ∈ K := hcov a (List.mem_cons_self _ _)
    have h1 : (K.map fun k => (a :: t).countP fun r => p r && decide (f r = k)) =
        K.map fun k => (t.countP fun r => p r && decide (f r = k)) +
          (if (p a && decide (f a = k)) = true then 1 else 0) := by
      refine List.map_congr_left fun k _ => ?_
      rw [List.countP_cons]
    rw [h1, sum_map_add, ih hcovt, List.countP_cons]
    congr 1
    by_cases hpa : p a = true
    · have h2 : (K.map fun k => if (p a && decide (f a = k)) = true then 1 else 0) =
          K.map fun k => if f a = k then 1 else 0 := by
        refine List.map_congr_left fun k _ => ?_
        by_cases hfk : f a = k <;> simp [hpa, hfk]
      rw [h2, sum_map_ite_mem hK hfa]
      simp [hpa]
    · have h2 : (K.map fun k => if (p a && decide (f a = k)) = true then 1 else 0) =
          K.map fun _ => 0 := by
        refine List.map_congr_left fun k _ => ?_
        simp [hpa]
      rw [h2]
      simp [hpa]

theorem countP_and_of_imp {α} {l : List α} {p q : α → Bool}
    (h : ∀ a ∈ l, p a = true → q a = true) :
    (l.countP fun a => p a && q a) = l.countP p := by
  refine List.countP_congr fun a ha => ?_
  by_cases hp : p a = true
  · simp [hp, h a ha hp]
  · simp [hp]

theorem countP_lt_countP {α} {l : List α} {p q : α → Bool}
    (hpq : ∀ x ∈ l, p x = true → q x = true)
    {x0 : α} (hx : x0 ∈ l) (hq : q x0 = true) (hp : p x0 = false) :
    l.countP p < l.countP q := by
  induction l with
  | nil => cases hx
  | cons a t ih =>
    have hpqt : ∀ x ∈ t, p x = true → q x = true := fun x hxt => hpq x (List.mem_cons_of_mem _ hxt)
    have hmono : t.countP p ≤ t.countP q := List.countP_mono_left hpqt
    rcases List.mem_cons.1 hx with rfl | hxt
    · rw [List.countP_cons, List.countP_cons, hp, hq]
      simp
      omega
    · have := ih hpqt hxt
      rw [List.countP_cons, List.countP_cons]
      by_cases hpa : p a = true
      · simp [hpa, hpq a (List.mem_cons_self _ _) hpa]
        omega
      · simp [hpa]
        by_cases hqa : q a = true <;> simp [hqa] <;> omega

theorem countP_key_map {α} (f : α → String) (l : List α) (k : String) :
    ((l.map f).countP fun x => decide (x = k)) = l.countP fun x => decide (f x = k) := by
  rw [List.countP_map]
  rfl

theorem mem_key_iff_countP_pos {α} (f : α → String) (l : List α) (k : String) :
    k ∈ l.map f ↔ 0 < l.countP fun x => decide (f x = k) := by
  rw [List.countP_pos_iff]
  constructor
  · intro h
    rcases List.mem_map.1 h with ⟨x, hx, hfx⟩
    exact ⟨x, hx, by simp [hfx]⟩
  · rintro ⟨x, hx, hfx⟩
    exact List.mem_map.2 ⟨x, hx, by simpa using hfx⟩

theorem nodup_key_countP_le_one {α} {f : α → String} {l : List α}
    (h : (l.map f).Nodup) (k : String) :
    (l.countP fun x => decide (f x = k)) ≤ 1 := by
  have hc := List.nodup_iff_count_le_one.1 h k
  rw [List.count_eq_countP] at hc
  calc (l.countP fun x => decide (f x = k))
      = (l.map f).countP fun x => decide (x = k) := (countP_key_map f l k).symm
    _ = (l.map f).countP fun x => x == k := by
        refine List.countP_congr fun x _ => ?_
        simp [beq_iff_eq]
    _ ≤ 1 := hc

/-! ## Lemmas about the generic outer merge -/

theorem outerExtend_mem {α β γ} {kl : α → String} {kr : β → String} {both : α → β → γ}
    {onlyL : α → γ} {onlyR : β → γ} {l : List α} {r : List β} {z : γ}
    (hz : z ∈ outerExtend kl kr both onlyL onlyR l r) :
    (∃ x ∈ l, ∃ y ∈ r, kr y = kl x ∧ z = both x y) ∨
    (∃ x ∈ l, z = onlyL x) ∨
    (∃ y ∈ r, z = onlyR y ∧ ∀ x ∈ l, kr y ≠ kl x) := by
  unfold outerExtend at hz
  rcases List.mem_append.1 hz with h | h
  · rcases List.mem_flatMap.1 h with ⟨x, hx, hzx⟩
    by_cases hms : (r.filter fun y => kr y == kl x).isEmpty = true
    · rw [if_pos hms] at hzx
      right; left
      exact ⟨x, hx, (List.mem_singleton.1 hzx).symm ▸ rfl⟩
    · rw [if_neg hms] at hzx
      rcases List.mem_map.1 hzx with ⟨y, hy, hzy⟩
      have hyf := List.mem_filter.1 hy
      left
      exact ⟨x, hx, y, hyf.1, by simpa [beq_iff_eq] using hyf.2, hzy.symm⟩
  · rcases List.mem_map.1 h with ⟨y, hy, hzy⟩
    have hyf := List.mem_filter.1 hy
    right; right
    refine ⟨y, hyf.1, hzy.symm, fun x hx => ?_⟩
    have := List.all_eq_true.1 hyf.2 x hx
    simpa [beq_iff_eq] using this

theorem outerExtend_countP {α β γ} {kl : α → String} {kr : β → String} {both : α → β → γ}
    {onlyL : α → γ} {onlyR : β → γ} (kc : γ → String)
    (hb : ∀ x y, kc (both x y) = kl x) (hl : ∀ x, kc (onlyL x) = kl x)
    (hr : ∀ y, kc (onlyR y) = kr y)
    (l : List α) (r : List β)
    (hru : ∀ k, (r.countP fun y => decide (kr y = k)) ≤ 1) (c : String) :
    ((outerExtend kl kr both onlyL onlyR l r).countP fun z => decide (kc z = c)) =
      (l.countP fun x => decide (kl x = c)) +
      if (l.countP fun x => decide (kl x = c)) = 0
      then (r.countP fun y => decide (kr y = c)) else 0 := by
  unfold outerExtend
  rw [List.countP_append]
  have hfil : ∀ x : α, ((r.filter fun y => kr y == kl x).countP fun y => decide (kr y = c)) =
      (r.countP fun y => decide (kr y = kl x) && decide (kr y = c)) := by
    intro x
    rw [List.countP_filter]
    refine List.countP_congr fun y _ => ?_
    by_cases h1 : kr y = kl x <;> by_cases h2 : kr y = c <;> simp [h1, h2]
  have hlen : ∀ x : α, (r.filter fun y => kr y == kl x).length =
      r.countP fun y => decide (kr y = kl x) := by
    intro x
    rw [← List.countP_eq_length_filter]
    refine List.countP_congr fun y _ => ?_
    simp [beq_iff_eq]
  have hA : ((l.flatMap fun x =>
        let ms := r.filter fun y => kr y == kl x
        if ms.isEmpty then [onlyL x] else ms.map fun y => both x y).countP
          fun z => decide (kc z = c)) = l.countP fun x => decide (kl x = c) := by
    rw [List.countP_flatMap]
    have hmap : (l.map ((List.countP fun z => decide (kc z = c)) ∘ fun x =>
        let ms := r.filter fun y => kr y == kl x
        if ms.isEmpty then [onlyL x] else ms.map fun y => both x y)) =
        l.map fun x => if kl x = c then 1 else 0 := by
      refine List.map_congr_left fun x _ => ?_
      show ((if (r.filter fun y => kr y == kl x).isEmpty then [onlyL x]
             else (r.filter fun y => kr y == kl x).map fun y => both x y).countP
               fun z => decide (kc z = c)) = _
      by_cases hms : (r.filter fun y => kr y == kl x).isEmpty = true
      · rw [if_pos hms]
        simp [List.countP_cons, hl x]
      · rw [if_neg hms]
        rw [List.countP_map]
        have hcomp : ((fun z => decide (kc z = c)) ∘ fun y => both x y) =
            fun _ => decide (kl x = c) := by
          funext y
          simp [hb x y]
        rw [hcomp]
        have hne : (r.filter fun y => kr y == kl x) ≠ [] := by
          intro hnil
          rw [List.isEmpty_iff] at hms
          exact hms hnil
        have hlen1 : (r.filter fun y => kr y == kl x).length = 1 := by
          have h1 : 1 ≤ (r.filter fun y => kr y == kl x).length :=
            List.length_pos.2 hne
          have h2 := hlen x ▸ hru (kl x)
          omega
        by_cases hklc : kl x = c
        · have hconst : (fun _ : β => decide (kl x = c)) = fun _ => true := by
            funext y
            simp [hklc]
          rw [hconst, List.countP_true, hlen1, if_pos hklc]
        · have hconst : (fun _ : β => decide (kl x = c)) = fun _ => false := by
            funext y
            simp [hklc]
          rw [hconst]
          simp [hklc]
    rw [hmap, ← sum_map_ite_eq_countP]
  rw [hA]
  congr 1
  rw [List.countP_map]
  have hcomp : ((fun z => decide (kc z = c)) ∘ onlyR) = fun y => decide (kr y = c) := by
    funext y
    simp [hr y]
  rw [hcomp, List.countP_filter]
  by_cases hc0 : (l.countP fun x => decide (kl x = c)) = 0
  · rw [if_pos hc0]
    have hall : ∀ x ∈ l, ¬(kl x = c) := by
      intro x hx hkl
      have : 0 < l.countP fun x => decide (kl x = c) :=
        List.countP_pos_iff.2 ⟨x, hx, by simp [hkl]⟩
      omega
    refine List.countP_congr fun y hy => ?_
    by_cases hkr : kr y = c
    · have hne2 : ∀ x ∈ l, ¬(kr y = kl x) := by
        intro x hx he
        exact hall x hx (he ▸ hkr)
      have hallb : (l.all fun x => !(kr y == kl x)) = true := by
        rw [List.all_eq_true]
        intro x hx
        have := hne2 x hx
        simp [beq_iff_eq]
        intro he
        exact this he
      simp [hkr, hallb]
      intro x hx he
      exact hall x hx he.symm
    · simp [hkr]
  · rw [if_neg hc0]
    have hpos : 0 < l.countP fun x => decide (kl x = c) := Nat.pos_of_ne_zero hc0
    rcases List.countP_pos_iff.1 hpos with ⟨x0, hx0, hklx0⟩
    have hklx0 : kl x0 = c := by simpa using hklx0
    refine List.countP_eq_zero.2 fun y hy => ?_
    by_cases hkr : kr y = c
    · have : (l.all fun x => !(kr y == kl x)) = false := by
        rw [List.all_eq_false]
        refine ⟨x0, hx0, ?_⟩
        simp [beq_iff_eq, hkr, hklx0]
      simp [this]
    · simp [hkr]

/-! ## Club multiplicity through the pipeline -/

theorem countClub_m1 (s : List SurveyRow) (se : List SentimentRow)
    (hse : ∀ k, (se.countP fun t => decide (t.club_name = k)) ≤ 1) (c : String) :
    ((mergeSurveySentiment s se).countP fun m => decide (m.club_name = c)) =
      (s.countP fun x => decide (x.club_name = c)) +
      if (s.countP fun x => decide (x.club_name = c)) = 0
      then se.countP fun t => decide (t.club_name = c) else 0 := by
  unfold mergeSurveySentiment
  exact @outerExtend_countP SurveyRow SentimentRow MergedRow
    (fun x => x.club_name) (fun y => y.club_name)
    (fun x t => surveyToMerged x (some t.sentiment_score))
    (fun x => surveyToMerged x none) sentOnlyMerged
    (fun m => m.club_name)
    (fun _ _ => rfl) (fun _ => rfl) (fun _ => rfl) s se hse c

theorem countClub_m2 (df : List MergedRow) (w : List ChatRow)
    (hw : ∀ k, (w.countP fun t => decide (t.club_name = k)) ≤ 1) (c : String) :
    ((mergeChat df w).countP fun m => decide (m.club_name = c)) =
      (df.countP fun x => decide (x.club_name = c)) +
      if (df.countP fun x => decide (x.club_name = c)) = 0
      then w.countP fun t => decide (t.club_name = c) else 0 := by
  unfold mergeChat
  exact @outerExtend_countP MergedRow ChatRow MergedRow
    (fun x => x.club_name) (fun y => y.club_name)
    withChat id chatOnlyMerged
    (fun m => m.club_name)
    (fun _ _ => rfl) (fun _ => rfl) (fun _ => rfl) df w hw c

theorem countClub_m3 (df : List MergedRow) (e : List EventRow)
    (he : ∀ k, (e.countP fun t => decide (t.club_name = k)) ≤ 1) (c : String) :
    ((mergeEvent df e).countP fun m => decide (m.club_name = c)) =
      (df.countP fun x => decide (x.club_name = c)) +
      if (df.countP fun x => decide (x.club_name = c)) = 0
      then e.countP fun t => decide (t.club_name = c) else 0 := by
  unfold mergeEvent
  exact @outerExtend_countP MergedRow EventRow MergedRow
    (fun x => x.club_name) (fun y => y.club_name)
    withEvent id eventOnlyMerged
    (fun m => m.club_name)
    (fun _ _ => rfl) (fun _ => rfl) (fun _ => rfl) df e he c

theorem countClub_merged (s : List SurveyRow) (w : List ChatRow)
    (se : List SentimentRow) (e : List EventRow)
    (hs : (s.map fun x => x.club_name).Nodup) (hw : (w.map fun x => x.club_name).Nodup)
    (hse : (se.map fun x => x.club_name).Nodup) (he : (e.map fun x => x.club_name).Nodup)
    (c : String)
    (hmem : c ∈ s.map (fun x => x.club_name) ∨ c ∈ se.map (fun x => x.club_name) ∨
      c ∈ w.map (fun x => x.club_name) ∨ c ∈ e.map (fun x => x.club_name)) :
    ((mergedRows s w se e).countP fun m => decide (m.club_name = c)) = 1 := by
  have h1 := countClub_m1 s se (fun k => nodup_key_countP_le_one hse k) c
  have h2 := countClub_m2 (mergeSurveySentiment s se) w
    (fun k => nodup_key_countP_le_one hw k) c
  have h3 := countClub_m3 (mergeChat (mergeSurveySentiment s se) w) e
    (fun k => nodup_key_countP_le_one he k) c
  show ((mergeEvent (mergeChat (mergeSurveySentiment s se) w) e).countP
    fun m => decide (m.club_name = c)) = 1
  rw [h3, h2, h1]
  have hsb := nodup_key_countP_le_one hs c
  have hseb := nodup_key_countP_le_one hse c
  have hwb := nodup_key_countP_le_one hw c
  have heb := nodup_key_countP_le_one he c
  have hmem2 : 0 < (s.countP fun x => decide (x.club_name = c)) ∨
      0 < (se.countP fun x => decide (x.club_name = c)) ∨
      0 < (w.countP fun x => decide (x.club_name = c)) ∨
      0 < (e.countP fun x => decide (x.club_name = c)) := by
    rcases hmem with h | h | h | h
    · exact Or.inl ((mem_key_iff_countP_pos _ _ _).1 h)
    · exact Or.inr (Or.inl ((mem_key_iff_countP_pos _ _ _).1 h))
    · exact Or.inr (Or.inr (Or.inl ((mem_key_iff_countP_pos _ _ _).1 h)))
    · exact Or.inr (Or.inr (Or.inr ((mem_key_iff_countP_pos _ _ _).1 h)))
  rcases hmem2 with h | h | h | h <;> split_ifs <;> omega

theorem countClub_fill (l : List MergedRow) (c : String) :
    ((l.map fillRow).countP fun r => decide (r.club_name = c)) =
      l.countP fun m => decide (m.club_name = c) := by
  rw [List.countP_map]
  rfl

theorem countClub_concatGroups (df : List ScoredRow) (c : String) :
    ((concatGroups df).countP fun r => decide (r.club_name = c)) =
      df.countP fun r => decide (r.club_name = c) := by
  unfold concatGroups
  rw [List.countP_flatMap]
  have hmap : ((groupKeys df).map ((List.countP fun r => decide (r.club_name = c)) ∘ fun k =>
      scoreWithinGroup (df.filter fun r => r.group == k))) =
      (groupKeys df).map fun k =>
        df.countP fun r => decide (r.club_name = c) && decide (r.group = k) := by
    refine List.map_congr_left fun k _ => ?_
    show ((scoreWithinGroup (df.filter fun r => r.group == k)).countP
      fun r => decide (r.club_name = c)) = _
    unfold scoreWithinGroup
    rw [List.countP_map]
    have hpres : ((fun r => decide (r.club_name = c)) ∘
        catScore (groupStats (df.filter fun r => r.group == k))) =
        fun r : ScoredRow => decide (r.club_name = c) := by
      funext r
      rfl
    rw [hpres, List.countP_filter]
    refine List.countP_congr fun r _ => ?_
    by_cases h1 : r.club_name = c <;> by_cases h2 : r.group = k <;>
      simp [h1, h2, beq_iff_eq]
  rw [hmap]
  exact partition_countP df (groupKeys df) (fun r => r.group) _ (List.nodup_dedup _)
    (fun r hr => List.mem_dedup.2 (List.mem_map.2 ⟨r, hr, rfl⟩))

theorem countClub_addGlobal (l : List ScoredRow) (c : String) :
    ((addGlobalScores l).countP fun r => decide (r.club_name = c)) =
      l.countP fun r => decide (r.club_name = c) := by
  unfold addGlobalScores
  rw [List.countP_map]
  rfl

theorem countClub_addRanks (l : List ScoredRow) (c : String) :
    ((addRanks l).countP fun r => decide (r.club_name = c)) =
      l.countP fun r => decide (r.club_name = c) := by
  unfold addRanks
  rw [List.countP_map]
  rfl

theorem countClub_final (s : List SurveyRow) (w : List ChatRow)
    (se : List SentimentRow) (e : List EventRow) (c : String) :
    ((compute_group_scores s w se e).1.countP fun r => decide (r.club_name = c)) =
      (mergedRows s w se e).countP fun m => decide (m.club_name = c) := by
  show ((sortFinal (rankedRows s w se e)).countP fun r => decide (r.club_name = c)) = _
  unfold sortFinal
  rw [(List.perm_insertionSort finalOrder (rankedRows s w se e)).countP_eq]
  show ((addRanks (globalScoredRows s w se e)).countP fun r => decide (r.club_name = c)) = _
  rw [countClub_addRanks]
  show ((addGlobalScores (catScoredRows s w se e)).countP fun r => decide (r.club_name = c)) = _
  rw [countClub_addGlobal]
  show ((concatGroups (groupedRows s w se e)).countP fun r => decide (r.club_name = c)) = _
  rw [countClub_concatGroups]
  exact countClub_fill _ c

/-! ## Origin of a final row -/

theorem final_origin {s : List SurveyRow} {w : List ChatRow}
    {se : List SentimentRow} {e : List EventRow} {sr : ScoredRow}
    (h : sr ∈ (compute_group_scores s w se e).1) :
    ∃ k, ∃ r0 ∈ (groupedRows s w se e).filter (fun r => r.group == k),
      sr = rankRow (globalScoredRows s w se e)
        (globScore (globalStatsOf (catScoredRows s w se e))
          (catScore (groupStats ((groupedRows s w se e).filter fun r => r.group == k)) r0)) := by
  have h1 : sr ∈ rankedRows s w se e := by
    have : sr ∈ sortFinal (rankedRows s w se e) := h
    unfold sortFinal at this
    exact (List.mem_insertionSort finalOrder).1 this
  unfold rankedRows addRanks at h1
  rcases List.mem_map.1 h1 with ⟨g, hg, hEq1⟩
  unfold globalScoredRows addGlobalScores at hg
  rcases List.mem_map.1 hg with ⟨c0, hc0, hEq2⟩
  unfold catScoredRows concatGroups at hc0
  rcases List.mem_flatMap.1 hc0 with ⟨k, _, hc0k⟩
  unfold scoreWithinGroup at hc0k
  rcases List.mem_map.1 hc0k with ⟨r0, hr0, hEq3⟩
  refine ⟨k, r0, hr0, ?_⟩
  rw [← hEq1, ← hEq2, ← hEq3]

/-! ## Column tracing for clubs absent from a source -/

theorem m1_inv (s : List SurveyRow) (se : List SentimentRow) (z : MergedRow)
    (hz : z ∈ mergeSurveySentiment s se) :
    (z.club_name ∉ s.map (fun x => x.club_name) →
      z.heard_often_mean = none ∧ z.participation_mean = none ∧
      z.num_responses = none ∧ z.feedback_concat = none)
  ∧ (z.club_name ∉ se.map (fun x => x.club_name) → z.sentiment_score = none)
  ∧ z.whatsapp_msgs = none ∧ z.whatsapp_unique_senders = none ∧
    z.whatsapp_event_mentions = none ∧ z.event_count = none ∧ z.text_for_grouping = none := by
  rcases outerExtend_mem hz with ⟨x, hx, y, hy, hky, hzeq⟩ | ⟨x, hx, hzeq⟩ | ⟨y, hy, hzeq, _⟩
  · subst hzeq
    refine ⟨fun hno => absurd (List.mem_map.2 ⟨x, hx, rfl⟩) hno,
      fun hno => absurd (List.mem_map.2 ⟨y, hy, ?_⟩) hno, rfl, rfl, rfl, rfl, rfl⟩
    exact hky
  · subst hzeq
    exact ⟨fun hno => absurd (List.mem_map.2 ⟨x, hx, rfl⟩) hno,
      fun _ => rfl, rfl, rfl, rfl, rfl, rfl⟩
  · subst hzeq
    exact ⟨fun _ => ⟨rfl, rfl, rfl, rfl⟩,
      fun hno => absurd (List.mem_map.2 ⟨y, hy, rfl⟩) hno, rfl, rfl, rfl, rfl, rfl⟩

theorem m2_inv (s : List SurveyRow) (se : List SentimentRow) (w : List ChatRow) (z : MergedRow)
    (hz : z ∈ mergeChat (mergeSurveySentiment s se) w) :
    (z.club_name ∉ s.map (fun x => x.club_name) →
      z.heard_often_mean = none ∧ z.participation_mean = none ∧
      z.num_responses = none ∧ z.feedback_concat = none)
  ∧ (z.club_name ∉ se.map (fun x => x.club_name) → z.sentiment_score = none)
  ∧ (z.club_name ∉ w.map (fun x => x.club_name) →
      z.whatsapp_msgs = none ∧ z.whatsapp_unique_senders = none ∧ z.whatsapp_event_mentions = none)
  ∧ z.event_count = none ∧ z.text_for_grouping = none := by
  rcases outerExtend_mem hz with ⟨x, hx, y, hy, hky, hzeq⟩ | ⟨x, hx, hzeq⟩ | ⟨y, hy, hzeq, _⟩
  · subst hzeq
    have hxinv := m1_inv s se x hx
    refine ⟨hxinv.1, hxinv.2.1, fun hno => absurd (List.mem_map.2 ⟨y, hy, hky⟩) hno,
      hxinv.2.2.2.2.2.1, hxinv.2.2.2.2.2.2⟩
  · have hxinv := m1_inv s se x hx
    subst hzeq
    exact ⟨hxinv.1, hxinv.2.1,
      fun _ => ⟨hxinv.2.2.1, hxinv.2.2.2.1, hxinv.2.2.2.2.1⟩,
      hxinv.2.2.2.2.2.1, hxinv.2.2.2.2.2.2⟩
  · subst hzeq
    exact ⟨fun _ => ⟨rfl, rfl, rfl, rfl⟩, fun _ => rfl,
      fun hno => absurd (List.mem_map.2 ⟨y, hy, rfl⟩) hno, rfl, rfl⟩

theorem merged_inv (s : List SurveyRow) (w : List ChatRow)
    (se : List SentimentRow) (e : List EventRow) (z : MergedRow)
    (hz : z ∈ mergedRows s w se e) :
    (z.club_name ∉ s.map (fun x => x.club_name) →
      z.heard_often_mean = none ∧ z.participation_mean = none ∧
      z.num_responses = none ∧ z.feedback_concat = none)
  ∧ (z.club_name ∉ se.map (fun x => x.club_name) → z.sentiment_score = none)
  ∧ (z.club_name ∉ w.map (fun x => x.club_name) →
      z.whatsapp_msgs = none ∧ z.whatsapp_unique_senders = none ∧ z.whatsapp_event_mentions = none)
  ∧ (z.club_name ∉ e.map (fun x => x.club_name) →
      z.event_count = none ∧ z.text_for_grouping = none) := by
  rcases outerExtend_mem hz with ⟨x, hx, y, hy, hky, hzeq⟩ | ⟨x, hx, hzeq⟩ | ⟨y, hy, hzeq, _⟩
  · subst hzeq
    have hxinv := m2_inv s se w x hx
    exact ⟨hxinv.1, hxinv.2.1, hxinv.2.2.1,
      fun hno => absurd (List.mem_map.2 ⟨y, hy, hky⟩) hno⟩
  · have hxinv := m2_inv s se w x hx
    subst hzeq
    exact ⟨hxinv.1, hxinv.2.1, hxinv.2.2.1,
      fun _ => ⟨hxinv.2.2.2.1, hxinv.2.2.2.2⟩⟩
  · subst hzeq
    exact ⟨fun _ => ⟨rfl, rfl, rfl, rfl⟩, fun _ => rfl, fun _ => ⟨rfl, rfl, rfl⟩,
      fun hno => absurd (List.mem_map.2 ⟨y, hy, rfl⟩) hno⟩

/-! ## Base columns of a final row come from a merged row through fillna -/

theorem final_base {s : List SurveyRow} {w : List ChatRow}
    {se : List SentimentRow} {e : List EventRow} {r : ScoredRow}
    (hr : r ∈ (compute_group_scores s w se e).1) :
    ∃ m ∈ mergedRows s w se e, r.club_name = m.club_name ∧
      r.heard_often_mean = m.heard_often_mean.getD 0 ∧
      r.participation_mean = m.participation_mean.getD 0 ∧
      r.feedback_concat = m.feedback_concat.getD "" ∧
      r.sentiment_score = m.sentiment_score.getD 0.5 ∧
      r.whatsapp_msgs = m.whatsapp_msgs.getD 0 ∧
      r.whatsapp_unique_senders = m.whatsapp_unique_senders.getD 0 ∧
      r.whatsapp_event_mentions = m.whatsapp_event_mentions.getD 0 ∧
      r.event_count = m.event_count.getD 0 ∧
      r.text_for_grouping = m.text_for_grouping.getD "" := by
  rcases final_origin hr with ⟨k, r0, hr0, hEq⟩
  have hr0g : r0 ∈ groupedRows s w se e := (List.mem_filter.1 hr0).1
  unfold groupedRows at hr0g
  rcases List.mem_map.1 hr0g with ⟨m, hm, hfm⟩
  subst hEq
  subst hfm
  exact ⟨m, hm, rfl, rfl, rfl, rfl, rfl, rfl, rfl, rfl, rfl, rfl⟩

/-! ## Category assignment: first-match characterization -/

theorem lookupCategory_spec (cats : List (String × List String)) (text : String) :
    (lookupCategory cats text = "others" ∧
      ∀ p ∈ cats, ∀ kw ∈ p.2, strContains text kw = false) ∨
    (∃ pre p post, cats = pre ++ p :: post ∧ lookupCategory cats text = p.1 ∧
      (∃ kw ∈ p.2, strContains text kw = true) ∧
      ∀ q ∈ pre, ∀ kw ∈ q.2, strContains text kw = false) := by
  induction cats with
  | nil =>
    left
    exact ⟨rfl, fun p hp => absurd hp (List.not_mem_nil p)⟩
  | cons hd t ih =>
    rcases hd with ⟨cat, kws⟩
    by_cases h : (kws.any fun kw => strContains text kw) = true
    · right
      refine ⟨[], (cat, kws), t, by simp, ?_, ?_, by simp⟩
      · show (if (kws.any fun kw => strContains text kw) = true then cat
          else lookupCategory t text) = cat
        rw [if_pos h]
      · exact List.any_eq_true.1 h
    · have hstep : lookupCategory ((cat, kws) :: t) text = lookupCategory t text := by
        show (if (kws.any fun kw => strContains text kw) = true then cat
          else lookupCategory t text) = lookupCategory t text
        rw [if_neg h]
      have hhd : ∀ kw ∈ kws, strContains text kw = false := by
        intro kw hkw
        rcases Bool.eq_false_or_eq_true (strContains text kw) with ht | hf
        · exact absurd (List.any_eq_true.2 ⟨kw, hkw, ht⟩) h
        · exact hf
      rcases ih with ⟨hoth, hall⟩ | ⟨pre, p, post, hsplit, hval, hmatch, hpre⟩
      · left
        refine ⟨hstep.trans hoth, fun q hq => ?_⟩
        rcases List.mem_cons.1 hq with rfl | hqt
        · exact hhd
        · exact hall q hqt
      · right
        refine ⟨(cat, kws) :: pre, p, post, by rw [hsplit, List.cons_append], hstep.trans hval, hmatch, ?_⟩
        intro q hq
        rcases List.mem_cons.1 hq with rfl | hqp
        · exact hhd
        · exact hpre q hqp

/-- Claim C5: category assignment is total and first-match over the declared
taxonomy order, with fallback "others"; the Robotics club with a Python
Hackathon title goes to tech. -/
theorem claim_C5 :
    (∀ club_name text : String,
      (assign_club_to_category club_name text = "others" ∧
        ∀ p ∈ CATEGORY_KEYWORDS, ∀ kw ∈ p.2,
          strContains (pyLower (club_name ++ " " ++ text)) kw = false) ∨
      (∃ pre p post, CATEGORY_KEYWORDS = pre ++ p :: post ∧
        assign_club_to_category club_name text = p.1 ∧
        (∃ kw ∈ p.2, strContains (pyLower (club_name ++ " " ++ text)) kw = true) ∧
        ∀ q ∈ pre, ∀ kw ∈ q.2, strContains (pyLower (club_name ++ " " ++ text)) kw = false))
  ∧ assign_club_to_category "Robotics" "Python Hackathon" = "tech" := by
  constructor
  · intro club_name text
    exact lookupCategory_spec CATEGORY_KEYWORDS (pyLower (club_name ++ " " ++ text))
  · decide

theorem claim_C5_witness :
    assign_club_to_category "Robotics" "Python Hackathon" = "tech" := claim_C5.2

/-! ## Chat aggregation counts (claim C8) -/

theorem mem_dropWhile_iff {p : Char → Bool} {c : Char} (hc : p c = false) (l : List Char) :
    c ∈ l.dropWhile p ↔ c ∈ l := by
  induction l with
  | nil => simp
  | cons a t ih =>
    rw [List.dropWhile_cons]
    by_cases ha : p a = true
    · rw [if_pos ha, ih]
      constructor
      · exact fun h => List.mem_cons_of_mem _ h
      · intro h
        rcases List.mem_cons.1 h with rfl | h
        · rw [hc] at ha
          cases ha
        · exact h
    · rw [if_neg (by simpa using ha)]

theorem stripList_mem {c : Char} (hc : c.isWhitespace = false) (l : List Char) :
    c ∈ stripList l ↔ c ∈ l := by
  unfold stripList
  rw [List.mem_reverse, mem_dropWhile_iff hc, List.mem_reverse, mem_dropWhile_iff hc]

theorem strContainsChar_pyStrip {c : Char} (hc : c.isWhitespace = false) (s : String) :
    strContainsChar (pyStrip s) c = true ↔ strContainsChar s c = true := by
  show ((String.mk (stripList s.toList)).toList.contains c = true) ↔ (s.toList.contains c = true)
  have h1 : (String.mk (stripList s.toList)).toList = stripList s.toList := rfl
  rw [h1, List.elem_iff, List.elem_iff]
  exact stripList_mem hc s.toList

theorem bothChars_pyStrip (L : String) :
    ((strContainsChar (pyStrip L) '-' && strContainsChar (pyStrip L) ':') = true) ↔
      ((strContainsChar L '-' && strContainsChar L ':') = true) := by
  rw [Bool.and_eq_true, Bool.and_eq_true,
    strContainsChar_pyStrip (by decide) L, strContainsChar_pyStrip (by decide) L]

theorem bothChars_ne_empty {L : String}
    (h : (strContainsChar L '-' && strContainsChar L ':') = true) : ¬(L = "") := by
  intro hL
  subst hL
  cases h

theorem chat_foldl_msgs (lines : List String) (st : Nat × List String × Nat) :
    (lines.foldl chatStep st).1 =
      st.1 + (lines.countP fun L => strContainsChar L '-' && strContainsChar L ':') := by
  induction lines generalizing st with
  | nil => simp
  | cons L t ih =>
    rw [List.foldl_cons, ih, List.countP_cons]
    by_cases h : (strContainsChar L '-' && strContainsChar L ':') = true
    · have h1 : (chatStep st L).1 = st.1 + 1 := by
        unfold chatStep
        rw [if_pos h]
      rw [h1, h]
      simp
      omega
    · have h1 : chatStep st L = st := by
        unfold chatStep
        rw [if_neg h]
      rw [h1]
      simp [h]

theorem chat_foldl_id (lines : List String) (st : Nat × List String × Nat)
    (h : ∀ L ∈ lines, (strContainsChar L '-' && strContainsChar L ':') = false) :
    lines.foldl chatStep st = st := by
  induction lines generalizing st with
  | nil => rfl
  | cons L t ih =>
    rw [List.foldl_cons]
    have h1 : chatStep st L = st := by
      unfold chatStep
      rw [if_neg (by simp [h L (List.mem_cons_self _ _)])]
    rw [h1]
    exact ih _ fun L2 hL2 => h L2 (List.mem_cons_of_mem _ hL2)

theorem chat_clean_countP (raw : List String) :
    (((raw.map pyStrip).filter fun L => !(L == "")).countP
        fun L => strContainsChar L '-' && strContainsChar L ':') =
      raw.countP fun L => strContainsChar L '-' && strContainsChar L ':' := by
  rw [List.countP_filter]
  have h1 : ((raw.map pyStrip).countP fun L =>
      (strContainsChar L '-' && strContainsChar L ':') && !(L == "")) =
      (raw.map pyStrip).countP fun L => strContainsChar L '-' && strContainsChar L ':' := by
    refine countP_and_of_imp ?_
    intro L _ hboth
    have := bothChars_ne_empty hboth
    simp [this]
  rw [h1, List.countP_map]
  refine List.countP_congr fun L _ => ?_
  exact bothChars_pyStrip L

theorem chat_foldl_filter (lines : List String) (st : Nat × List String × Nat) :
    lines.foldl chatStep st =
      (lines.filter fun L => strContainsChar L '-' && strContainsChar L ':').foldl chatStep st := by
  induction lines generalizing st with
  | nil => rfl
  | cons L t ih =>
    rw [List.foldl_cons]
    by_cases h : (strContainsChar L '-' && strContainsChar L ':') = true
    · rw [List.filter_cons, if_pos h, List.foldl_cons]
      exact ih (chatStep st L)
    · have h1 : chatStep st L = st := by
        unfold chatStep
        rw [if_neg h]
      rw [h1, List.filter_cons, if_neg h, ih st]

/-- Claim C8: the message count is exactly the number of lines containing both
a hyphen and a colon (every such line is non-empty, so the pre-filter on
blank lines removes nothing that counts); a line lacking either character
leaves the accumulated message, sender, and event-mention state untouched, so
the entire aggregate — message count, unique-sender count and event-mention
count — is determined by the qualifying lines alone; and when no line
qualifies the aggregate is all zeros and no error is raised. -/
theorem claim_C8 (content : String) :
    (parse_whatsapp_text_file_bytes content).total_msgs =
      ((pySplitlines content).countP fun L => strContainsChar L '-' && strContainsChar L ':')
  ∧ (∀ L : String, (strContainsChar L '-' && strContainsChar L ':') = false →
      ∀ st, chatStep st L = st)
  ∧ parse_whatsapp_text_file_bytes content =
      (let q := ((((pySplitlines content).map pyStrip).filter fun L => !(L == "")).filter
          fun L => strContainsChar L '-' && strContainsChar L ':').foldl chatStep (0, [], 0)
       ⟨q.1, q.2.1.length, q.2.2⟩)
  ∧ (((pySplitlines content).countP fun L => strContainsChar L '-' && strContainsChar L ':') = 0 →
      parse_whatsapp_text_file_bytes content = ⟨0, 0, 0⟩) := by
  refine ⟨?_, ?_, ?_, ?_⟩
  · show ((((pySplitlines content).map pyStrip).filter fun L => !(L == "")).foldl
      chatStep (0, [], 0)).1 = _
    rw [chat_foldl_msgs, chat_clean_countP]
    simp
  · intro L hL st
    unfold chatStep
    rw [if_neg (by simp [hL])]
  · have h := chat_foldl_filter
      (((pySplitlines content).map pyStrip).filter fun L => !(L == "")) (0, [], 0)
    show (⟨((((pySplitlines content).map pyStrip).filter fun L => !(L == "")).foldl
        chatStep (0, [], 0)).1,
      ((((pySplitlines content).map pyStrip).filter fun L => !(L == "")).foldl
        chatStep (0, [], 0)).2.1.length,
      ((((pySplitlines content).map pyStrip).filter fun L => !(L == "")).foldl
        chatStep (0, [], 0)).2.2⟩ : ChatStats) = _
    rw [h]
  · intro h0
    have hall : ∀ L ∈ pySplitlines content,
        (strContainsChar L '-' && strContainsChar L ':') = false := by
      intro L hL
      have := List.countP_eq_zero.1 h0 L hL
      simpa using this
    have hclean : ∀ L ∈ ((pySplitlines content).map pyStrip).filter fun L => !(L == ""),
        (strContainsChar L '-' && strContainsChar L ':') = false := by
      intro L hL
      rcases List.mem_map.1 (List.mem_filter.1 hL).1 with ⟨L0, hL0, hLs⟩
      subst hLs
      rcases Bool.eq_false_or_eq_true
        (strContainsChar (pyStrip L0) '-' && strContainsChar (pyStrip L0) ':') with ht | hf
      · exact absurd ((bothChars_pyStrip L0).1 ht) (by simp [hall L0 hL0])
      · exact hf
    show (⟨((((pySplitlines content).map pyStrip).filter fun L => !(L == "")).foldl
        chatStep (0, [], 0)).1, _, _⟩ : ChatStats) = ⟨0, 0, 0⟩
    rw [chat_foldl_id _ _ hclean]
    rfl

theorem claim_C8_witness :
    parse_whatsapp_text_file_bytes "hello everyone\nsee you at practice" = ⟨0, 0, 0⟩ :=
  (claim_C8 "hello everyone\nsee you at practice").2.2.2 (by decide)

/-! ## Chat folder parsing keeps one row per file (claim C10) -/

/-- Claim C10: parse_whatsapp_folder emits exactly one row per uploaded file,
with the identity normalized from the file base name, and performs no
deduplication: two files whose names normalize to the same club yield two
rows carrying that same identity. -/
theorem claim_C10 :
    (∀ uploaded_files : List UploadedFile,
      ((parse_whatsapp_folder uploaded_files).map fun r => r.club_name) =
        uploaded_files.map fun f => normalize_name (splitextBase f.name))
  ∧ ((parse_whatsapp_folder [⟨"Chess Club.txt", some ""⟩, ⟨"chess club.txt", some ""⟩]).map
      fun r => r.club_name) = ["chess club", "chess club"]
  ∧ ∀ uploaded_files : List UploadedFile,
      (parse_whatsapp_folder uploaded_files).length = uploaded_files.length := by
  refine ⟨?_, by decide, ?_⟩
  · intro files
    unfold parse_whatsapp_folder
    rw [List.map_map]
    rfl
  · intro files
    unfold parse_whatsapp_folder
    rw [List.length_map]

theorem claim_C10_witness :
    ((parse_whatsapp_folder [⟨"Chess Club.txt", some ""⟩, ⟨"chess club.txt", some ""⟩]).map
      fun r => r.club_name) = ["chess club", "chess club"] := claim_C10.2.1

/-! ## Schema handling bugs of the two tabular parsers (claims C6 and C7) -/

/-- Claim C6 (divergence witness): an event log carrying its identity column
under the recognized synonym "Club Name" makes parse_event_log raise
KeyError — the df[club_name] access of line 148 runs before the synonym
rename of lines 149 to 153, so the fallback is dead code — while the very
same table with the canonical header parses fine. -/
theorem claim_C6_eval :
    parse_event_log ⟨["Club Name", "event_title", "event_description"],
      [[some "Robotics", some "Python Hackathon", some "Tech fest"]]⟩ =
      Except.error ("KeyError: club_name")
  ∧ ("Club Name" ∈ ["Club Name", "club", "clubname"])
  ∧ parse_event_log ⟨["club_name", "event_title", "event_description"],
      [[some "Robotics", some "Python Hackathon", some "Tech fest"]]⟩ =
      Except.ok [⟨"robotics", 1, "python hackathon tech fest"⟩] := by
  refine ⟨by decide, by decide, by with_unfolding_all decide⟩

/-- Claim C7 (divergence witness): a survey with only the club_name column
makes parse_survey raise — no default is ever created for the missing
heard_often column, and the named aggregation of line 71 then demands it —
while the same table plus a heard_often column parses, with participation
and feedback correctly defaulted. -/
theorem claim_C7_eval :
    parse_survey ⟨["club_name"], [[some "Chess Club"], [some "Drama Club"]]⟩ =
      Except.error ("KeyError: Column(s) [heard_often] do not exist")
  ∧ parse_survey ⟨["club_name", "heard_often"],
      [[some "Chess Club", some "5"], [some "Drama Club", some "3"]]⟩ =
      Except.ok [⟨"chess club", 5, 0, 1, ""⟩, ⟨"drama club", 3, 0, 1, ""⟩] := by
  refine ⟨by decide, by with_unfolding_all decide⟩

/-! ## Claim C1: outer-join completeness and default fill -/

/-- Claim C1 (amended): provided every source table carries each normalized
club identity at most once — which the survey and event aggregators guarantee
by grouping, but the chat aggregator does not — every club appearing in any
source appears exactly once in the final composite; and unconditionally, a
club absent from a source carries that source's defaults (popularity 0,
participation 0, feedback empty, sentiment 0.5, chat counts 0, event count 0,
grouping text empty), never a missing value (the row type is fully filled). -/
theorem claim_C1 (s : List SurveyRow) (w : List ChatRow)
    (se : List SentimentRow) (e : List EventRow) :
    (((s.map fun x => x.club_name).Nodup ∧ (w.map fun x => x.club_name).Nodup ∧
      (se.map fun x => x.club_name).Nodup ∧ (e.map fun x => x.club_name).Nodup) →
      ∀ c : String,
        (c ∈ s.map (fun x => x.club_name) ∨ c ∈ se.map (fun x => x.club_name) ∨
         c ∈ w.map (fun x => x.club_name) ∨ c ∈ e.map (fun x => x.club_name)) →
        ((compute_group_scores s w se e).1.countP fun r => decide (r.club_name = c)) = 1)
  ∧ (∀ r ∈ (compute_group_scores s w se e).1,
      (r.club_name ∉ s.map (fun x => x.club_name) →
        r.popularity_score = 0 ∧ r.participation_score = 0 ∧ r.feedback_concat = "")
    ∧ (r.club_name ∉ se.map (fun x => x.club_name) → r.sentiment_score = 0.5)
    ∧ (r.club_name ∉ w.map (fun x => x.club_name) →
        r.engagement_score = 0 ∧ r.whatsapp_unique_senders = 0 ∧ r.whatsapp_event_mentions = 0)
    ∧ (r.club_name ∉ e.map (fun x => x.club_name) →
        r.activity_score = 0 ∧ r.text_for_grouping = "")) := by
  constructor
  · rintro ⟨hs, hw, hse, he⟩ c hc
    rw [countClub_final]
    exact countClub_merged s w se e hs hw hse he c hc
  · intro r hr
    rcases final_base hr with
      ⟨m, hm, hclub, hheard, hpart, hfb, hsent, hmsgs, hsend, hment, hev, htext⟩
    have hinv := merged_inv s w se e m hm
    refine ⟨?_, ?_, ?_, ?_⟩
    · intro hno
      rw [hclub] at hno
      rcases hinv.1 hno with ⟨h1, h2, _, h4⟩
      refine ⟨?_, ?_, ?_⟩
      · show r.heard_often_mean = 0
        rw [hheard, h1]
        rfl
      · show r.participation_mean = 0
        rw [hpart, h2]
        rfl
      · rw [hfb, h4]
        rfl
    · intro hno
      rw [hclub] at hno
      rw [hsent, hinv.2.1 hno]
      rfl
    · intro hno
      rw [hclub] at hno
      rcases hinv.2.2.1 hno with ⟨h1, h2, h3⟩
      refine ⟨?_, ?_, ?_⟩
      · show r.whatsapp_msgs = 0
        rw [hmsgs, h1]
        rfl
      · rw [hsend, h2]
        rfl
      · rw [hment, h3]
        rfl
    · intro hno
      rw [hclub] at hno
      rcases hinv.2.2.2 hno with ⟨h1, h2⟩
      refine ⟨?_, ?_⟩
      · show r.event_count = 0
        rw [hev, h1]
        rfl
      · rw [htext, h2]
        rfl

/-- Claim C1 (counterexample to the unrestricted claim): two chat exports whose
file names normalize to the same club give that club two rows in the final
composite, not one. -/
theorem claim_C1_counterexample :
    ((compute_group_scores []
        (parse_whatsapp_folder [⟨"Chess Club.txt", some ""⟩, ⟨"chess club.txt", some ""⟩])
        [] []).1.countP fun r => decide (r.club_name = "chess club")) = 2 := by
  with_unfolding_all decide

theorem claim_C1_witness :
    ((compute_group_scores [⟨"chess club", 5, 1, 1, "great"⟩] [] [] []).1.countP
      fun r => decide (r.club_name = "chess club")) = 1
  ∧ ((compute_group_scores [⟨"chess club", 5, 1, 1, "great"⟩] [] [] []).1.getD 0
      defaultScoredRow).sentiment_score = 0.5 := by
  constructor
  · exact (claim_C1 [⟨"chess club", 5, 1, 1, "great"⟩] [] [] []).1
      ⟨by decide, by decide, by decide, by decide⟩ "chess club" (Or.inl (by decide))
  · have h := (claim_C1 [⟨"chess club", 5, 1, 1, "great"⟩] [] [] []).2
      ((compute_group_scores [⟨"chess club", 5, 1, 1, "great"⟩] [] [] []).1.getD 0
        defaultScoredRow)
      (by with_unfolding_all decide)
    exact h.2.1 (by simp)

/-! ## Projection lemmas for the scoring stages -/

theorem rankRow_overall_score (l : List ScoredRow) (r : ScoredRow) :
    (rankRow l r).overall_score = r.overall_score := rfl

theorem rankRow_group_score (l : List ScoredRow) (r : ScoredRow) :
    (rankRow l r).group_score = r.group_score := rfl

theorem rankRow_heard_norm (l : List ScoredRow) (r : ScoredRow) :
    (rankRow l r).heard_norm = r.heard_norm := rfl

theorem rankRow_participation_norm (l : List ScoredRow) (r : ScoredRow) :
    (rankRow l r).participation_norm = r.participation_norm := rfl

theorem rankRow_sentiment_norm (l : List ScoredRow) (r : ScoredRow) :
    (rankRow l r).sentiment_norm = r.sentiment_norm := rfl

theorem rankRow_whatsapp_msgs_norm (l : List ScoredRow) (r : ScoredRow) :
    (rankRow l r).whatsapp_msgs_norm = r.whatsapp_msgs_norm := rfl

theorem rankRow_event_count_n (l : List ScoredRow) (r : ScoredRow) :
    (rankRow l r).event_count_n = r.event_count_n := rfl

theorem rankRow_heard_norm_global (l : List ScoredRow) (r : ScoredRow) :
    (rankRow l r).heard_norm_global = r.heard_norm_global := rfl

theorem rankRow_participation_norm_global (l : List ScoredRow) (r : ScoredRow) :
    (rankRow l r).participation_norm_global = r.participation_norm_global := rfl

theorem rankRow_sentiment_norm_global (l : List ScoredRow) (r : ScoredRow) :
    (rankRow l r).sentiment_norm_global = r.sentiment_norm_global := rfl

theorem rankRow_whatsapp_msgs_norm_global (l : List ScoredRow) (r : ScoredRow) :
    (rankRow l r).whatsapp_msgs_norm_global = r.whatsapp_msgs_norm_global := rfl

theorem rankRow_event_count_norm_global (l : List ScoredRow) (r : ScoredRow) :
    (rankRow l r).event_count_norm_global = r.event_count_norm_global := rfl

theorem rankRow_participation_mean (l : List ScoredRow) (r : ScoredRow) :
    (rankRow l r).participation_mean = r.participation_mean := rfl

theorem rankRow_whatsapp_msgs (l : List ScoredRow) (r : ScoredRow) :
    (rankRow l r).whatsapp_msgs = r.whatsapp_msgs := rfl

theorem rankRow_event_count (l : List ScoredRow) (r : ScoredRow) :
    (rankRow l r).event_count = r.event_count := rfl

theorem rankRow_heard_often_mean (l : List ScoredRow) (r : ScoredRow) :
    (rankRow l r).heard_often_mean = r.heard_often_mean := rfl

theorem globScore_overall_score (gs : GlobalStats) (r : ScoredRow) :
    (globScore gs r).overall_score = wsum default_weights
      (globScore gs r).heard_norm_global (globScore gs r).participation_norm_global
      (globScore gs r).sentiment_norm_global (globScore gs r).whatsapp_msgs_norm_global
      (globScore gs r).event_count_norm_global := rfl

theorem globScore_heard_norm_global (gs : GlobalStats) (r : ScoredRow) :
    (globScore gs r).heard_norm_global = r.heard_often_mean / 5 := rfl

theorem globScore_participation_norm_global (gs : GlobalStats) (r : ScoredRow) :
    (globScore gs r).participation_norm_global =
      if gs.pmax > 0 then r.participation_mean / gs.pmax else 0 := rfl

theorem globScore_sentiment_norm_global (gs : GlobalStats) (r : ScoredRow) :
    (globScore gs r).sentiment_norm_global = r.sentiment_score := rfl

theorem globScore_whatsapp_msgs_norm_global (gs : GlobalStats) (r : ScoredRow) :
    (globScore gs r).whatsapp_msgs_norm_global =
      if gs.mmax > 0 then r.whatsapp_msgs / gs.mmax else 0 := rfl

theorem globScore_event_count_norm_global (gs : GlobalStats) (r : ScoredRow) :
    (globScore gs r).event_count_norm_global =
      if gs.emax > 0 then r.event_count / gs.emax else 0 := rfl

theorem globScore_group_score (gs : GlobalStats) (r : ScoredRow) :
    (globScore gs r).group_score = r.group_score := rfl

theorem globScore_heard_norm (gs : GlobalStats) (r : ScoredRow) :
    (globScore gs r).heard_norm = r.heard_norm := rfl

theorem globScore_participation_norm (gs : GlobalStats) (r : ScoredRow) :
    (globScore gs r).participation_norm = r.participation_norm := rfl

theorem globScore_sentiment_norm (gs : GlobalStats) (r : ScoredRow) :
    (globScore gs r).sentiment_norm = r.sentiment_norm := rfl

theorem globScore_whatsapp_msgs_norm (gs : GlobalStats) (r : ScoredRow) :
    (globScore gs r).whatsapp_msgs_norm = r.whatsapp_msgs_norm := rfl

theorem globScore_event_count_n (gs : GlobalStats) (r : ScoredRow) :
    (globScore gs r).event_count_n = r.event_count_n := rfl

theorem globScore_participation_mean (gs : GlobalStats) (r : ScoredRow) :
    (globScore gs r).participation_mean = r.participation_mean := rfl

theorem globScore_whatsapp_msgs (gs : GlobalStats) (r : ScoredRow) :
    (globScore gs r).whatsapp_msgs = r.whatsapp_msgs := rfl

theorem globScore_event_count (gs : GlobalStats) (r : ScoredRow) :
    (globScore gs r).event_count = r.event_count := rfl

theorem globScore_heard_often_mean (gs : GlobalStats) (r : ScoredRow) :
    (globScore gs r).heard_often_mean = r.heard_often_mean := rfl

theorem catScore_group_score (st : GroupStats) (r : ScoredRow) :
    (catScore st r).group_score = wsum default_weights
      (catScore st r).heard_norm (catScore st r).participation_norm
      (catScore st r).sentiment_norm (catScore st r).whatsapp_msgs_norm
      (catScore st r).event_count_n := rfl

theorem catScore_participation_mean (st : GroupStats) (r : ScoredRow) :
    (catScore st r).participation_mean = r.participation_mean := rfl

theorem catScore_whatsapp_msgs (st : GroupStats) (r : ScoredRow) :
    (catScore st r).whatsapp_msgs = r.whatsapp_msgs := rfl

theorem catScore_event_count (st : GroupStats) (r : ScoredRow) :
    (catScore st r).event_count = r.event_count := rfl

theorem catScore_heard_often_mean (st : GroupStats) (r : ScoredRow) :
    (catScore st r).heard_often_mean = r.heard_often_mean := rfl

theorem catScore_heard_norm (st : GroupStats) (r : ScoredRow) :
    (catScore st r).heard_norm = r.heard_often_mean / 5 := rfl

theorem catScore_participation_norm (st : GroupStats) (r : ScoredRow) :
    (catScore st r).participation_norm =
      if st.pmax - st.pmin > 0
      then (r.participation_mean - st.pmin) / (st.pmax - st.pmin) else 0 := rfl

theorem catScore_sentiment_norm (st : GroupStats) (r : ScoredRow) :
    (catScore st r).sentiment_norm = r.sentiment_score := rfl

theorem catScore_whatsapp_msgs_norm (st : GroupStats) (r : ScoredRow) :
    (catScore st r).whatsapp_msgs_norm =
      if st.mmax - st.mmin > 0
      then (r.whatsapp_msgs - st.mmin) / (st.mmax - st.mmin) else 0 := rfl

theorem catScore_event_count_n (st : GroupStats) (r : ScoredRow) :
    (catScore st r).event_count_n =
      if st.emax - st.emin > 0
      then (r.event_count - st.emin) / (st.emax - st.emin) else 0 := rfl

theorem catScore_group (st : GroupStats) (r : ScoredRow) :
    (catScore st r).group = r.group := rfl

theorem globScore_group (gs : GlobalStats) (r : ScoredRow) :
    (globScore gs r).group = r.group := rfl

theorem rankRow_group (l : List ScoredRow) (r : ScoredRow) :
    (rankRow l r).group = r.group := rfl

theorem participation_score_eq (r : ScoredRow) :
    r.participation_score = r.participation_mean := rfl

theorem engagement_score_eq (r : ScoredRow) :
    r.engagement_score = r.whatsapp_msgs := rfl

theorem activity_score_eq (r : ScoredRow) :
    r.activity_score = r.event_count := rfl

theorem popularity_score_eq (r : ScoredRow) :
    r.popularity_score = r.heard_often_mean := rfl

/-! ## Claim C2: min-method descending rank over overall score -/

theorem rank_formula {s : List SurveyRow} {w : List ChatRow}
    {se : List SentimentRow} {e : List EventRow} {r : ScoredRow}
    (hr : r ∈ (compute_group_scores s w se e).1) :
    r.overall_rank = 1 + ((globalScoredRows s w se e).countP
      fun r2 => decide (r.overall_score < r2.overall_score)) := by
  have h1 : r ∈ addRanks (globalScoredRows s w se e) := by
    have h0 : r ∈ sortFinal (rankedRows s w se e) := hr
    unfold sortFinal at h0
    exact (List.mem_insertionSort finalOrder).1 h0
  unfold addRanks at h1
  rcases List.mem_map.1 h1 with ⟨g, _, hEq⟩
  subst hEq
  rfl

theorem countScore_final (s : List SurveyRow) (w : List ChatRow)
    (se : List SentimentRow) (e : List EventRow) (q : ℚ) :
    ((compute_group_scores s w se e).1.countP fun r2 => decide (q < r2.overall_score)) =
      (globalScoredRows s w se e).countP fun r2 => decide (q < r2.overall_score) := by
  show ((sortFinal (rankedRows s w se e)).countP fun r2 => decide (q < r2.overall_score)) = _
  unfold sortFinal
  rw [(List.perm_insertionSort finalOrder _).countP_eq]
  show ((addRanks (globalScoredRows s w se e)).countP
    fun r2 => decide (q < r2.overall_score)) = _
  unfold addRanks
  rw [List.countP_map]
  refine List.countP_congr fun x _ => ?_
  show (decide (q < (rankRow (globalScoredRows s w se e) x).overall_score) = true) ↔
    (decide (q < x.overall_score) = true)
  rw [rankRow_overall_score]

theorem final_score_mem {s : List SurveyRow} {w : List ChatRow}
    {se : List SentimentRow} {e : List EventRow} {r : ScoredRow}
    (hr : r ∈ (compute_group_scores s w se e).1) :
    ∃ g ∈ globalScoredRows s w se e, g.overall_score = r.overall_score := by
  have h1 : r ∈ addRanks (globalScoredRows s w se e) := by
    have h0 : r ∈ sortFinal (rankedRows s w se e) := hr
    unfold sortFinal at h0
    exact (List.mem_insertionSort finalOrder).1 h0
  unfold addRanks at h1
  rcases List.mem_map.1 h1 with ⟨g, hg, hEq⟩
  subst hEq
  exact ⟨g, hg, rfl⟩

/-- Claim C2: on the final table, a strictly greater overall score means a
strictly smaller rank, equal scores share the rank, and the rank of a row is
exactly one plus the number of rows with strictly greater overall score
(the min competition rank descending of pandas rank). -/
theorem claim_C2 (s : List SurveyRow) (w : List ChatRow)
    (se : List SentimentRow) (e : List EventRow) (a b : ScoredRow)
    (ha : a ∈ (compute_group_scores s w se e).1) (hb : b ∈ (compute_group_scores s w se e).1) :
    (a.overall_score > b.overall_score → a.overall_rank < b.overall_rank)
  ∧ (a.overall_score = b.overall_score → a.overall_rank = b.overall_rank)
  ∧ a.overall_rank = 1 + ((compute_group_scores s w se e).1.countP
      fun r => decide (a.overall_score < r.overall_score)) := by
  have hra := rank_formula ha
  have hrb := rank_formula hb
  refine ⟨?_, ?_, ?_⟩
  · intro hgt
    rw [hra, hrb]
    have hlt : ((globalScoredRows s w se e).countP
        fun r2 => decide (a.overall_score < r2.overall_score)) <
        ((globalScoredRows s w se e).countP
        fun r2 => decide (b.overall_score < r2.overall_score)) := by
      rcases final_score_mem ha with ⟨ga, hga, hgas⟩
      refine countP_lt_countP ?_ hga ?_ ?_
      · intro x _ hx
        have hx2 := of_decide_eq_true hx
        exact decide_eq_true (lt_trans hgt hx2)
      · rw [hgas]
        exact decide_eq_true hgt
      · rw [hgas]
        simp [lt_irrefl]
    omega
  · intro heq
    rw [hra, hrb, heq]
  · rw [hra, countScore_final]

theorem claim_C2_witness :
    ((compute_group_scores [] [⟨"a", 10, 0, 0⟩, ⟨"b", 0, 0, 0⟩] [] []).1.getD 0
      defaultScoredRow).overall_score >
    ((compute_group_scores [] [⟨"a", 10, 0, 0⟩, ⟨"b", 0, 0, 0⟩] [] []).1.getD 1
      defaultScoredRow).overall_score
  ∧ ((compute_group_scores [] [⟨"a", 10, 0, 0⟩, ⟨"b", 0, 0, 0⟩] [] []).1.getD 0
      defaultScoredRow).overall_rank <
    ((compute_group_scores [] [⟨"a", 10, 0, 0⟩, ⟨"b", 0, 0, 0⟩] [] []).1.getD 1
      defaultScoredRow).overall_rank := by
  have hgt : ((compute_group_scores [] [⟨"a", 10, 0, 0⟩, ⟨"b", 0, 0, 0⟩] [] []).1.getD 0
      defaultScoredRow).overall_score >
      ((compute_group_scores [] [⟨"a", 10, 0, 0⟩, ⟨"b", 0, 0, 0⟩] [] []).1.getD 1
      defaultScoredRow).overall_score := by
    with_unfolding_all decide
  refine ⟨hgt, ?_⟩
  exact (claim_C2 [] [⟨"a", 10, 0, 0⟩, ⟨"b", 0, 0, 0⟩] [] [] _ _
    (by with_unfolding_all decide) (by with_unfolding_all decide)).1 hgt

/-! ## Claim C3: flat category groups normalize to zero -/

theorem foldl_max_const {v : ℚ} (t : List ℚ) (h : ∀ y ∈ t, y = v) : t.foldl max v = v := by
  induction t with
  | nil => rfl
  | cons a t2 ih =>
    rw [List.foldl_cons, h a (List.mem_cons_self _ _), max_self]
    exact ih fun y hy => h y (List.mem_cons_of_mem _ hy)

theorem foldl_min_const {v : ℚ} (t : List ℚ) (h : ∀ y ∈ t, y = v) : t.foldl min v = v := by
  induction t with
  | nil => rfl
  | cons a t2 ih =>
    rw [List.foldl_cons, h a (List.mem_cons_self _ _), min_self]
    exact ih fun y hy => h y (List.mem_cons_of_mem _ hy)

theorem listMax_eq_listMin_flat {ys : List ℚ}
    (hflat : ∀ a ∈ ys, ∀ b ∈ ys, a = b) : listMax ys = listMin ys := by
  match ys with
  | [] => rfl
  | v :: t =>
    have ht : ∀ y ∈ t, y = v := fun y hy =>
      hflat y (List.mem_cons_of_mem _ hy) v (List.mem_cons_self _ _)
    show t.foldl max v = t.foldl min v
    rw [foldl_max_const t ht, foldl_min_const t ht]

/-- Claim C3: when a category group is flat in one of the min-max-scaled
metrics (participation, chat messages, event count), the within-category
normalized value of that metric is 0.0 for every member of the group. -/
theorem claim_C3 (s : List SurveyRow) (w : List ChatRow)
    (se : List SentimentRow) (e : List EventRow) (gname : String) :
    ((∀ a ∈ (groupedRows s w se e).filter (fun x => x.group == gname),
        ∀ b ∈ (groupedRows s w se e).filter (fun x => x.group == gname),
          a.participation_mean = b.participation_mean) →
      ∀ r ∈ (compute_group_scores s w se e).1, r.group = gname → r.participation_norm = 0)
  ∧ ((∀ a ∈ (groupedRows s w se e).filter (fun x => x.group == gname),
        ∀ b ∈ (groupedRows s w se e).filter (fun x => x.group == gname),
          a.whatsapp_msgs = b.whatsapp_msgs) →
      ∀ r ∈ (compute_group_scores s w se e).1, r.group = gname → r.whatsapp_msgs_norm = 0)
  ∧ ((∀ a ∈ (groupedRows s w se e).filter (fun x => x.group == gname),
        ∀ b ∈ (groupedRows s w se e).filter (fun x => x.group == gname),
          a.event_count = b.event_count) →
      ∀ r ∈ (compute_group_scores s w se e).1, r.group = gname → r.event_count_n = 0) := by
  refine ⟨?_, ?_, ?_⟩
  all_goals
    intro hflat r hr hg
    rcases final_origin hr with ⟨k, r0, hr0, hEq⟩
    have hk : r.group = k := by
      rw [hEq]
      show r0.group = k
      have := (List.mem_filter.1 hr0).2
      simpa [beq_iff_eq] using this
    have hkg : k = gname := by
      rw [← hk, hg]
    subst hkg
    subst hEq
  · have hmm : (groupStats ((groupedRows s w se e).filter fun x => x.group == k)).pmax =
        (groupStats ((groupedRows s w se e).filter fun x => x.group == k)).pmin := by
      unfold groupStats
      refine listMax_eq_listMin_flat ?_
      intro a hav b hbv
      rcases List.mem_map.1 hav with ⟨ra, hra, haeq⟩
      rcases List.mem_map.1 hbv with ⟨rb, hrb, hbeq⟩
      rw [← haeq, ← hbeq]
      exact hflat ra hra rb hrb
    show (if (groupStats ((groupedRows s w se e).filter fun x => x.group == k)).pmax -
        (groupStats ((groupedRows s w se e).filter fun x => x.group == k)).pmin > 0
      then (r0.participation_mean -
          (groupStats ((groupedRows s w se e).filter fun x => x.group == k)).pmin) /
        ((groupStats ((groupedRows s w se e).filter fun x => x.group == k)).pmax -
          (groupStats ((groupedRows s w se e).filter fun x => x.group == k)).pmin)
      else 0) = 0
    rw [hmm]
    simp
  · have hmm : (groupStats ((groupedRows s w se e).filter fun x => x.group == k)).mmax =
        (groupStats ((groupedRows s w se e).filter fun x => x.group == k)).mmin := by
      unfold groupStats
      refine listMax_eq_listMin_flat ?_
      intro a hav b hbv
      rcases List.mem_map.1 hav with ⟨ra, hra, haeq⟩
      rcases List.mem_map.1 hbv with ⟨rb, hrb, hbeq⟩
      rw [← haeq, ← hbeq]
      exact hflat ra hra rb hrb
    show (if (groupStats ((groupedRows s w se e).filter fun x => x.group == k)).mmax -
        (groupStats ((groupedRows s w se e).filter fun x => x.group == k)).mmin > 0
      then (r0.whatsapp_msgs -
          (groupStats ((groupedRows s w se e).filter fun x => x.group == k)).mmin) /
        ((groupStats ((groupedRows s w se e).filter fun x => x.group == k)).mmax -
          (groupStats ((groupedRows s w se e).filter fun x => x.group == k)).mmin)
      else 0) = 0
    rw [hmm]
    simp
  · have hmm : (groupStats ((groupedRows s w se e).filter fun x => x.group == k)).emax =
        (groupStats ((groupedRows s w se e).filter fun x => x.group == k)).emin := by
      unfold groupStats
      refine listMax_eq_listMin_flat ?_
      intro a hav b hbv
      rcases List.mem_map.1 hav with ⟨ra, hra, haeq⟩
      rcases List.mem_map.1 hbv with ⟨rb, hrb, hbeq⟩
      rw [← haeq, ← hbeq]
      exact hflat ra hra rb hrb
    show (if (groupStats ((groupedRows s w se e).filter fun x => x.group == k)).emax -
        (groupStats ((groupedRows s w se e).filter fun x => x.group == k)).emin > 0
      then (r0.event_count -
          (groupStats ((groupedRows s w se e).filter fun x => x.group == k)).emin) /
        ((groupStats ((groupedRows s w se e).filter fun x => x.group == k)).emax -
          (groupStats ((groupedRows s w se e).filter fun x => x.group == k)).emin)
      else 0) = 0
    rw [hmm]
    simp

theorem claim_C3_witness :
    ((compute_group_scores [] [⟨"tech alpha", 10, 0, 0⟩, ⟨"tech beta", 10, 0, 0⟩] [] []).1.getD 0
      defaultScoredRow).whatsapp_msgs_norm = 0 := by
  refine (claim_C3 [] [⟨"tech alpha", 10, 0, 0⟩, ⟨"tech beta", 10, 0, 0⟩] [] [] "others").2.1
    (by with_unfolding_all decide) _ (by with_unfolding_all decide)
    (by with_unfolding_all decide)

/-! ## Claim C4: global normalization is max-scaling guarded by a positive max -/

/-- Claim C4 (amended): the global normalization divides the raw value by the
population maximum when that maximum is positive and yields 0.0 when the
maximum is not positive (in particular when it is 0); popularity is the raw
mean over the fixed ceiling 5, identical to the Step 3 formula. -/
theorem claim_C4 (s : List SurveyRow) (w : List ChatRow)
    (se : List SentimentRow) (e : List EventRow) (r : ScoredRow)
    (hr : r ∈ (compute_group_scores s w se e).1) :
    (globalPmax s w se e > 0 →
      r.participation_norm_global = r.participation_score / globalPmax s w se e)
  ∧ (globalPmax s w se e ≤ 0 → r.participation_norm_global = 0)
  ∧ (globalMmax s w se e > 0 →
      r.whatsapp_msgs_norm_global = r.engagement_score / globalMmax s w se e)
  ∧ (globalMmax s w se e ≤ 0 → r.whatsapp_msgs_norm_global = 0)
  ∧ (globalEmax s w se e > 0 →
      r.event_count_norm_global = r.activity_score / globalEmax s w se e)
  ∧ (globalEmax s w se e ≤ 0 → r.event_count_norm_global = 0)
  ∧ r.heard_norm_global = r.popularity_score / 5
  ∧ r.heard_norm_global = r.heard_norm := by
  rcases final_origin hr with ⟨k, r0, _, hEq⟩
  subst hEq
  unfold globalPmax globalMmax globalEmax
  refine ⟨?_, ?_, ?_, ?_, ?_, ?_, ?_, ?_⟩
  · intro h
    rw [participation_score_eq, rankRow_participation_norm_global,
      globScore_participation_norm_global, rankRow_participation_mean,
      globScore_participation_mean, catScore_participation_mean, if_pos h]
  · intro h
    rw [rankRow_participation_norm_global, globScore_participation_norm_global,
      if_neg (not_lt.2 h)]
  · intro h
    rw [engagement_score_eq, rankRow_whatsapp_msgs_norm_global,
      globScore_whatsapp_msgs_norm_global, rankRow_whatsapp_msgs,
      globScore_whatsapp_msgs, catScore_whatsapp_msgs, if_pos h]
  · intro h
    rw [rankRow_whatsapp_msgs_norm_global, globScore_whatsapp_msgs_norm_global,
      if_neg (not_lt.2 h)]
  · intro h
    rw [activity_score_eq, rankRow_event_count_norm_global,
      globScore_event_count_norm_global, rankRow_event_count,
      globScore_event_count, catScore_event_count, if_pos h]
  · intro h
    rw [rankRow_event_count_norm_global, globScore_event_count_norm_global,
      if_neg (not_lt.2 h)]
  · rw [popularity_score_eq, rankRow_heard_norm_global, globScore_heard_norm_global,
      rankRow_heard_often_mean, globScore_heard_often_mean, catScore_heard_often_mean]
  · rw [rankRow_heard_norm_global, globScore_heard_norm_global,
      rankRow_heard_norm, globScore_heard_norm, catScore_heard_norm,
      catScore_heard_often_mean]

/-- Claim C4 (counterexample to the unrestricted claim): with one club whose
participation_mean is -1, the population maximum is -1 (nonzero), the claimed
value divided by max would be 1, but the code normalizes to 0 because its
guard tests max greater than 0, not max nonzero. -/
theorem claim_C4_counterexample :
    globalPmax [⟨"a", 0, -1, 1, ""⟩] [] [] [] ≠ 0
  ∧ (((compute_group_scores [⟨"a", 0, -1, 1, ""⟩] [] [] []).1.map
      fun r => r.participation_norm_global) = [0])
  ∧ (((compute_group_scores [⟨"a", 0, -1, 1, ""⟩] [] [] []).1.map
      fun r => r.participation_score / globalPmax [⟨"a", 0, -1, 1, ""⟩] [] [] []) = [1]) := by
  refine ⟨by with_unfolding_all decide, by with_unfolding_all decide,
    by with_unfolding_all decide⟩

theorem claim_C4_witness :
    globalPmax [⟨"a", 0, 2, 1, ""⟩] [] [] [] > 0
  ∧ ((compute_group_scores [⟨"a", 0, 2, 1, ""⟩] [] [] []).1.getD 0
      defaultScoredRow).participation_norm_global =
    ((compute_group_scores [⟨"a", 0, 2, 1, ""⟩] [] [] []).1.getD 0
      defaultScoredRow).participation_score / globalPmax [⟨"a", 0, 2, 1, ""⟩] [] [] [] := by
  have hpos : globalPmax [⟨"a", 0, 2, 1, ""⟩] [] [] [] > 0 := by
    with_unfolding_all decide
  refine ⟨hpos, ?_⟩
  exact (claim_C4 [⟨"a", 0, 2, 1, ""⟩] [] [] [] _ (by with_unfolding_all decide)).1 hpos

/-! ## Claim C9: weighted scores stay in the unit interval -/

theorem final_score_formula {s : List SurveyRow} {w : List ChatRow}
    {se : List SentimentRow} {e : List EventRow} {r : ScoredRow}
    (hr : r ∈ (compute_group_scores s w se e).1) :
    r.group_score = wsum default_weights r.heard_norm r.participation_norm
      r.sentiment_norm r.whatsapp_msgs_norm r.event_count_n
  ∧ r.overall_score = wsum default_weights r.heard_norm_global r.participation_norm_global
      r.sentiment_norm_global r.whatsapp_msgs_norm_global r.event_count_norm_global := by
  rcases final_origin hr with ⟨k, r0, _, hEq⟩
  subst hEq
  constructor
  · rw [rankRow_group_score, globScore_group_score, catScore_group_score,
      rankRow_heard_norm, globScore_heard_norm,
      rankRow_participation_norm, globScore_participation_norm,
      rankRow_sentiment_norm, globScore_sentiment_norm,
      rankRow_whatsapp_msgs_norm, globScore_whatsapp_msgs_norm,
      rankRow_event_count_n, globScore_event_count_n]
  · rw [rankRow_overall_score, globScore_overall_score,
      rankRow_heard_norm_global, rankRow_participation_norm_global,
      rankRow_sentiment_norm_global, rankRow_whatsapp_msgs_norm_global,
      rankRow_event_count_norm_global]

theorem wsum_bounds {h p s m e : ℚ} (hh0 : 0 ≤ h) (hh1 : h ≤ 1) (hp0 : 0 ≤ p) (hp1 : p ≤ 1)
    (hs0 : 0 ≤ s) (hs1 : s ≤ 1) (hm0 : 0 ≤ m) (hm1 : m ≤ 1) (he0 : 0 ≤ e) (he1 : e ≤ 1) :
    0 ≤ wsum default_weights h p s m e ∧ wsum default_weights h p s m e ≤ 1 := by
  unfold wsum default_weights
  norm_num
  constructor <;> nlinarith

/-- Claim C9: with all five normalized inputs in the unit interval, the
weighted category score and the weighted overall score are in the unit
interval (the weights 0.30, 0.30, 0.20, 0.10, 0.10 sum to 1). -/
theorem claim_C9 (s : List SurveyRow) (w : List ChatRow)
    (se : List SentimentRow) (e : List EventRow) (r : ScoredRow)
    (hr : r ∈ (compute_group_scores s w se e).1) :
    ((0 ≤ r.heard_norm ∧ r.heard_norm ≤ 1) ∧
     (0 ≤ r.participation_norm ∧ r.participation_norm ≤ 1) ∧
     (0 ≤ r.sentiment_norm ∧ r.sentiment_norm ≤ 1) ∧
     (0 ≤ r.whatsapp_msgs_norm ∧ r.whatsapp_msgs_norm ≤ 1) ∧
     (0 ≤ r.event_count_n ∧ r.event_count_n ≤ 1) →
      0 ≤ r.category_score ∧ r.category_score ≤ 1)
  ∧ ((0 ≤ r.heard_norm_global ∧ r.heard_norm_global ≤ 1) ∧
     (0 ≤ r.participation_norm_global ∧ r.participation_norm_global ≤ 1) ∧
     (0 ≤ r.sentiment_norm_global ∧ r.sentiment_norm_global ≤ 1) ∧
     (0 ≤ r.whatsapp_msgs_norm_global ∧ r.whatsapp_msgs_norm_global ≤ 1) ∧
     (0 ≤ r.event_count_norm_global ∧ r.event_count_norm_global ≤ 1) →
      0 ≤ r.overall_score ∧ r.overall_score ≤ 1) := by
  have hf := final_score_formula hr
  constructor
  · rintro ⟨⟨h1, h2⟩, ⟨h3, h4⟩, ⟨h5, h6⟩, ⟨h7, h8⟩, ⟨h9, h10⟩⟩
    show 0 ≤ r.group_score ∧ r.group_score ≤ 1
    rw [hf.1]
    exact wsum_bounds h1 h2 h3 h4 h5 h6 h7 h8 h9 h10
  · rintro ⟨⟨h1, h2⟩, ⟨h3, h4⟩, ⟨h5, h6⟩, ⟨h7, h8⟩, ⟨h9, h10⟩⟩
    rw [hf.2]
    exact wsum_bounds h1 h2 h3 h4 h5 h6 h7 h8 h9 h10

theorem claim_C9_witness :
    0 ≤ ((compute_group_scores [] [⟨"a", 10, 0, 0⟩, ⟨"b", 0, 0, 0⟩] [] []).1.getD 0
      defaultScoredRow).category_score
  ∧ ((compute_group_scores [] [⟨"a", 10, 0, 0⟩, ⟨"b", 0, 0, 0⟩] [] []).1.getD 0
      defaultScoredRow).category_score ≤ 1 :=
  (claim_C9 [] [⟨"a", 10, 0, 0⟩, ⟨"b", 0, 0, 0⟩] [] [] _
    (by with_unfolding_all decide)).1 (by with_unfolding_all decide)

